import Mathlib

/-!
# Verification of the OX (tic-tac-toe) game engine

A shallow embedding of the game logic of `app.py`: board representation,
win/tie detection, move generation, the three AI strategies (Easy, Normal,
Hard minimax), and the session-level move handling, together with theorems
about the engine's behaviour.

Python's 9-element list of strings `""`, `"X"`, `"O"` is embedded as a
`List Cell` of length 9; the in-place mutation `board[m] = mark` of the
search is embedded either functionally (`List.set`) or, where the
mutate-and-undo discipline itself is under study, as explicit state passing
(`minimaxS`, `best_move_minimaxS`).  `random.choice` is embedded as an
explicit choice function `pick : List Nat → Nat` supplied by the caller.
-/

inductive Cell where
  | empty
  | X
  | O
deriving DecidableEq, Repr

abbrev Board := List Cell

/-- The 8 winning index triples of `app.py` (`WIN_LINES`):
3 rows, then 3 columns, then 2 diagonals, in that order. -/
def WIN_LINES : List (Nat × Nat × Nat) :=
  [(0,1,2), (3,4,5), (6,7,8),
   (0,3,6), (1,4,7), (2,5,8),
   (0,4,8), (2,4,6)]

/-- Reading `board[i]` (in range for all boards the engine builds). -/
def cellAt (board : Board) (i : Nat) : Cell := board.getD i Cell.empty

/-- The loop-body test of `check_winner`:
`board[a] and board[a] == board[b] == board[c]`
(a Python chained comparison is a conjunction of adjacent comparisons,
and `board[a]` is truthy exactly when the string is non-empty). -/
def lineWinner (board : Board) (l : Nat × Nat × Nat) : Bool :=
  cellAt board l.1 != Cell.empty
    && cellAt board l.1 == cellAt board l.2.1
    && cellAt board l.2.1 == cellAt board l.2.2

/-- `check_winner(board)`: return the mark of the first winning line in
`WIN_LINES` order, or `None`. -/
def check_winner (board : Board) : Option Cell :=
  match WIN_LINES.find? (lineWinner board) with
  | some l => some (cellAt board l.1)
  | none => none

/-- `is_board_full(board)`: `all(cell != "" for cell in board)`. -/
def is_board_full (board : Board) : Bool :=
  board.all (fun cell => cell != Cell.empty)

/-- `available_moves(board)`: `[i for i, v in enumerate(board) if v == ""]`. -/
def available_moves (board : Board) : List Nat :=
  (board.enum.filter (fun p => p.2 == Cell.empty)).map (fun p => p.1)

/-- The spec's `Outcome`: `\x7bInProgress, Win(mark), Tie\x7d`. -/
inductive Outcome where
  | inProgress
  | win (m : Cell)
  | tie
deriving DecidableEq, Repr

/-- The spec's `evaluate()`, exactly as `conclude_if_end` in `app.py`
derives the round outcome: first `check_winner`, then `is_board_full`
for a tie, otherwise the game goes on. -/
def evaluate (board : Board) : Outcome :=
  match check_winner board with
  | some w => Outcome.win w
  | none => if is_board_full board then Outcome.tie else Outcome.inProgress

/-- Spec-side predicate: mark `m` fully owns line `l` on `board`
(all three cells non-empty and equal to `m`). -/
def lineWonBy (board : Board) (l : Nat × Nat × Nat) (m : Cell) : Prop :=
  m ≠ Cell.empty ∧ cellAt board l.1 = m ∧ cellAt board l.2.1 = m ∧ cellAt board l.2.2 = m

instance (board : Board) (l : Nat × Nat × Nat) (m : Cell) :
    Decidable (lineWonBy board l m) := by
  unfold lineWonBy; infer_instance

theorem lineWinner_iff (board : Board) (l : Nat × Nat × Nat) :
    lineWinner board l = true ↔ lineWonBy board l (cellAt board l.1) := by
  unfold lineWinner lineWonBy
  constructor
  · intro h
    simp only [Bool.and_eq_true, bne_iff_ne, beq_iff_eq] at h
    obtain ⟨⟨h1, h2⟩, h3⟩ := h
    exact ⟨h1, rfl, h2.symm, (h2.trans h3).symm⟩
  · rintro ⟨h1, -, h2, h3⟩
    simp only [Bool.and_eq_true, bne_iff_ne, beq_iff_eq]
    exact ⟨⟨h1, h2.symm⟩, h2.trans h3.symm⟩

theorem lineWinner_of_lineWonBy {board : Board} {l : Nat × Nat × Nat} {m : Cell}
    (h : lineWonBy board l m) : lineWinner board l = true ∧ cellAt board l.1 = m := by
  obtain ⟨hm, h1, h2, h3⟩ := h
  refine ⟨?_, h1⟩
  simp only [lineWinner, Bool.and_eq_true, bne_iff_ne, beq_iff_eq]
  refine ⟨⟨?_, h1.trans h2.symm⟩, h2.trans h3.symm⟩
  rw [h1]; exact hm

theorem check_winner_eq_some_iff (board : Board) (m : Cell) :
    check_winner board = some m ↔
      ∃ i : Nat, ∃ hlt : i < WIN_LINES.length,
        lineWonBy board (WIN_LINES.get ⟨i, hlt⟩) m ∧
        ∀ j : Nat, ∀ hj : j < i, ∀ m' : Cell,
          ¬ lineWonBy board (WIN_LINES.get ⟨j, by omega⟩) m' := by
  unfold check_winner
  constructor
  · intro h
    cases hf : WIN_LINES.find? (lineWinner board) with
    | none => rw [hf] at h; exact absurd h (by simp)
    | some l =>
      rw [hf] at h
      simp only [Option.some.injEq] at h
      rw [List.find?_eq_some_iff_getElem] at hf
      obtain ⟨hp, i, hi, hget, hprev⟩ := hf
      refine ⟨i, hi, ?_, ?_⟩
      · have hx := (lineWinner_iff board l).mp hp
        rw [← h]
        simpa [List.get_eq_getElem, hget] using hx
      · intro j hj m' hcon
        have hw := (lineWinner_of_lineWonBy hcon).1
        have hq := hprev j (by omega)
        simp only [List.get_eq_getElem] at hw
        rw [hw] at hq
        simp at hq
  · rintro ⟨i, hi, hwon, hprev⟩
    have hw := lineWinner_of_lineWonBy hwon
    have hf : WIN_LINES.find? (lineWinner board) = some (WIN_LINES.get ⟨i, hi⟩) := by
      rw [List.find?_eq_some_iff_getElem]
      refine ⟨hw.1, i, hi, by simp [List.get_eq_getElem], ?_⟩
      intro j hj
      by_contra hcon
      simp only [Bool.not_eq_eq_eq_not, Bool.not_true, Bool.not_eq_false] at hcon
      have hx := (lineWinner_iff board (WIN_LINES[j])).mp hcon
      exact hprev j hj _ (by simpa [List.get_eq_getElem] using hx)
    rw [hf]
    exact congrArg some hw.2

theorem check_winner_eq_none_iff (board : Board) :
    check_winner board = none ↔
      ∀ l ∈ WIN_LINES, ∀ m : Cell, ¬ lineWonBy board l m := by
  unfold check_winner
  constructor
  · intro h l hl m hcon
    cases hf : WIN_LINES.find? (lineWinner board) with
    | some l' => rw [hf] at h; exact absurd h (by simp)
    | none =>
      rw [List.find?_eq_none] at hf
      have := hf l hl
      rw [(lineWinner_of_lineWonBy hcon).1] at this
      simp at this
  · intro h
    cases hf : WIN_LINES.find? (lineWinner board) with
    | some l =>
      have hmem := List.mem_of_find?_eq_some hf
      have hp := List.find?_some hf
      exact absurd ((lineWinner_iff board l).mp hp) (h l hmem _)
    | none => rfl

theorem is_board_full_iff (board : Board) :
    is_board_full board = true ↔ Cell.empty ∉ board := by
  simp only [is_board_full, List.all_eq_true, bne_iff_ne, ne_eq]
  constructor
  · intro h hc; exact h _ hc rfl
  · intro h c hc hce; rw [hce] at hc; exact h hc

/-- `minimax(board, ai_mark, human_mark, is_maximizing)` from `app.py`.
The Python recursion terminates because every recursive call fills one
empty cell; the embedding makes that explicit with a `fuel` argument that
callers instantiate with `board.length`, which always suffices (at `fuel = 0`
a board with no empty cells is full and hits the terminal cases).
The in-place `board[m] = mark … board[m] = ""` pair around each recursive
call is embedded functionally as recursion on `board.set m mark`;
`minimaxS` below embeds the mutation discipline itself. -/
def minimax : Nat → Board → Cell → Cell → Bool → Int
  | 0, board, ai_mark, human_mark, _ =>
    let winner := check_winner board
    if winner = some ai_mark then 10
    else if winner = some human_mark then -10
    else 0
  | fuel + 1, board, ai_mark, human_mark, is_maximizing =>
    let winner := check_winner board
    if winner = some ai_mark then 10
    else if winner = some human_mark then -10
    else if is_board_full board then 0
    else
      let moves := available_moves board
      if is_maximizing then
        moves.foldl
          (fun best m =>
            max best (minimax fuel (board.set m ai_mark) ai_mark human_mark false))
          (-999)
      else
        moves.foldl
          (fun best m =>
            min best (minimax fuel (board.set m human_mark) ai_mark human_mark true))
          999

/-- `best_move_minimax(board, ai_mark)` from `app.py`: fold over
`available_moves` keeping the first move whose score strictly exceeds the
best so far (initially `-999`). -/
def best_move_minimax (board : Board) (ai_mark : Cell) : Option Nat :=
  let human_mark := if ai_mark = Cell.X then Cell.O else Cell.X
  ((available_moves board).foldl
    (fun acc m =>
      let score := minimax board.length (board.set m ai_mark) ai_mark human_mark false
      if score > acc.1 then (score, some m) else acc)
    (-999, none)).2

/-- `find_winning_move(board, mark)` from `app.py`: the first available move
that, when played by `mark`, makes `mark` the winner (each probe is undone
in the source; functionally the probe board is `board.set m mark`). -/
def find_winning_move (board : Board) (mark : Cell) : Option Nat :=
  (available_moves board).find? (fun m => check_winner (board.set m mark) == some mark)

/-- `best_move_normal(board, ai_mark)` from `app.py`.  `pick` stands for
`random.choice`, receiving the non-empty candidate list. -/
def best_move_normal (pick : List Nat → Nat) (board : Board) (ai_mark : Cell) :
    Option Nat :=
  let human_mark := if ai_mark = Cell.X then Cell.O else Cell.X
  match find_winning_move board ai_mark with
  | some m => some m
  | none =>
    match find_winning_move board human_mark with
    | some m => some m
    | none =>
      if cellAt board 4 = Cell.empty then some 4
      else
        let corners := [0,2,6,8].filter (fun i => cellAt board i == Cell.empty)
        if corners.isEmpty then
          let sides := [1,3,5,7].filter (fun i => cellAt board i == Cell.empty)
          if sides.isEmpty then none else some (pick sides)
        else some (pick corners)

/-- `best_move_easy(board, ai_mark)` from `app.py`:
`random.choice(moves) if moves else None`. -/
def best_move_easy (pick : List Nat → Nat) (board : Board) : Option Nat :=
  let moves := available_moves board
  if moves.isEmpty then none else some (pick moves)

inductive Difficulty where
  | easy
  | normal
  | hard
deriving DecidableEq, Repr

inductive Mode where
  | humanVsAI
  | humanVsHuman
deriving DecidableEq, Repr

/-- `get_ai_move(board, ai_mark, difficulty)` from `app.py`. -/
def get_ai_move (pick : List Nat → Nat) (board : Board) (ai_mark : Cell)
    (difficulty : Difficulty) : Option Nat :=
  match difficulty with
  | Difficulty.hard => best_move_minimax board ai_mark
  | Difficulty.normal => best_move_normal pick board ai_mark
  | Difficulty.easy => best_move_easy pick board

/-- The Streamlit session state of `app.py`: board, current player, the
three score buckets, the game-over flag, mode, difficulty and the human's
mark. -/
structure GameState where
  board : Board
  current_player : Cell
  scoreX : Nat
  scoreO : Nat
  scoreTIE : Nat
  game_over : Bool
  mode : Mode
  difficulty : Difficulty
  human_mark : Cell
deriving DecidableEq, Repr

/-- `conclude_if_end()` from `app.py`: set `game_over` and increment the
winner's (or the tie) score bucket when the round ended; report whether it
did. -/
def conclude_if_end (s : GameState) : GameState × Bool :=
  match check_winner s.board with
  | some w =>
    ({ s with
        game_over := true
        scoreX := if w = Cell.X then s.scoreX + 1 else s.scoreX
        scoreO := if w = Cell.O then s.scoreO + 1 else s.scoreO }, true)
  | none =>
    if is_board_full s.board then
      ({ s with game_over := true, scoreTIE := s.scoreTIE + 1 }, true)
    else (s, false)

/-- `human_move(cell_index)` from `app.py`.  The Python function returns
`None` and never raises for in-range indices; reading `board[cell_index]`
with `cell_index ≥ len(board)` raises `IndexError` before any mutation,
which the embedding surfaces as `Except.error "IndexError"`.  An occupied
cell (or a finished game) silently falls through: the state is returned
unchanged and no error is produced. -/
def human_move (pick : List Nat → Nat) (s : GameState) (cell_index : Nat) :
    Except String GameState :=
  if s.game_over then Except.ok s
  else
    match s.board.get? cell_index with
    | none => Except.error "IndexError"
    | some c =>
      if c = Cell.empty then
        let s1 := { s with board := s.board.set cell_index s.current_player }
        let r1 := conclude_if_end s1
        if r1.2 then Except.ok r1.1
        else
          let s3 := { r1.1 with
            current_player := if r1.1.current_player = Cell.X then Cell.O else Cell.X }
          if s3.mode = Mode.humanVsAI then
            let ai_mark := if s3.human_mark = Cell.X then Cell.O else Cell.X
            if s3.current_player = ai_mark && !s3.game_over then
              match get_ai_move pick s3.board ai_mark s3.difficulty with
              | some ai_idx =>
                let s4 := { s3 with board := s3.board.set ai_idx ai_mark }
                let r2 := conclude_if_end s4
                if r2.2 then Except.ok r2.1
                else
                  Except.ok { r2.1 with
                    current_player :=
                      if r2.1.current_player = Cell.X then Cell.O else Cell.X }
              | none => Except.ok s3
            else Except.ok s3
          else Except.ok s3
      else Except.ok s

/-- The sidebar "New Round" button handler of `app.py`: empty board,
`current_player = "X"`, `game_over = False`; everything else untouched. -/
def new_round (s : GameState) : GameState :=
  { s with
      board := List.replicate 9 Cell.empty
      current_player := Cell.X
      game_over := false }

/-- The sidebar "Reset Score" button handler of `app.py`: zero the three
score buckets and reset the round state. -/
def reset_score (s : GameState) : GameState :=
  { s with
      scoreX := 0
      scoreO := 0
      scoreTIE := 0
      board := List.replicate 9 Cell.empty
      current_player := Cell.X
      game_over := false }

theorem evaluate_eq_win_iff (board : Board) (m : Cell) :
    evaluate board = Outcome.win m ↔ check_winner board = some m := by
  unfold evaluate
  cases hc : check_winner board with
  | some w => simp
  | none => cases hfull : is_board_full board <;> simp

theorem evaluate_eq_tie_iff (board : Board) :
    evaluate board = Outcome.tie ↔
      check_winner board = none ∧ is_board_full board = true := by
  unfold evaluate
  cases hc : check_winner board with
  | some w => simp
  | none => cases hfull : is_board_full board <;> simp

theorem evaluate_eq_inProgress_iff (board : Board) :
    evaluate board = Outcome.inProgress ↔
      check_winner board = none ∧ is_board_full board = false := by
  unfold evaluate
  cases hc : check_winner board with
  | some w => simp
  | none => cases hfull : is_board_full board <;> simp

/-- **C1**: for every board, the win/tie evaluation returns `Win m` exactly
when some `WIN_LINES` entry has all three cells non-empty and equal to `m`,
taking the first such line in the fixed enumeration order (3 rows, then
3 columns, then 2 diagonals); it returns `Tie` exactly when no line is won
and no empty cell remains; otherwise it returns `InProgress`. -/
theorem evaluate_characterization (board : Board) :
    (∀ m : Cell,
      evaluate board = Outcome.win m ↔
        ∃ i : Nat, ∃ hlt : i < WIN_LINES.length,
          lineWonBy board (WIN_LINES.get ⟨i, hlt⟩) m ∧
          ∀ j : Nat, ∀ hj : j < i, ∀ m' : Cell,
            ¬ lineWonBy board (WIN_LINES.get ⟨j, by omega⟩) m') ∧
    (evaluate board = Outcome.tie ↔
      (∀ l ∈ WIN_LINES, ∀ m : Cell, ¬ lineWonBy board l m) ∧
        Cell.empty ∉ board) ∧
    (evaluate board = Outcome.inProgress ↔
      (∀ l ∈ WIN_LINES, ∀ m : Cell, ¬ lineWonBy board l m) ∧
        Cell.empty ∈ board) := by
  refine ⟨?_, ?_, ?_⟩
  · intro m
    rw [evaluate_eq_win_iff, check_winner_eq_some_iff]
  · rw [evaluate_eq_tie_iff, check_winner_eq_none_iff, is_board_full_iff]
  · rw [evaluate_eq_inProgress_iff, check_winner_eq_none_iff]
    constructor
    · rintro ⟨h1, h2⟩
      refine ⟨h1, ?_⟩
      by_contra hn
      rw [(is_board_full_iff board).mpr hn] at h2
      exact absurd h2 (by simp)
    · rintro ⟨h1, h2⟩
      refine ⟨h1, ?_⟩
      cases hfull : is_board_full board with
      | false => rfl
      | true => exact absurd h2 ((is_board_full_iff board).mp hfull)

/-- `minimax` again, with the in-place mutation of `app.py` embedded as
explicit state passing: the board is threaded through every recursive call,
`board[m] = mark` becomes `b.set m mark` and the undo `board[m] = ""`
becomes `b.set m Cell.empty`, exactly where the source performs them.
Returns the score together with the board as the search leaves it. -/
def minimaxS : Nat → Cell → Cell → Bool → Board → Int × Board
  | 0, ai_mark, human_mark, _, board =>
    let winner := check_winner board
    if winner = some ai_mark then (10, board)
    else if winner = some human_mark then (-10, board)
    else (0, board)
  | fuel + 1, ai_mark, human_mark, is_maximizing, board =>
    let winner := check_winner board
    if winner = some ai_mark then (10, board)
    else if winner = some human_mark then (-10, board)
    else if is_board_full board then (0, board)
    else
      let moves := available_moves board
      if is_maximizing then
        moves.foldl
          (fun acc m =>
            let b1 := acc.2.set m ai_mark
            let r := minimaxS fuel ai_mark human_mark false b1
            let b2 := r.2.set m Cell.empty
            (max acc.1 r.1, b2))
          (-999, board)
      else
        moves.foldl
          (fun acc m =>
            let b1 := acc.2.set m human_mark
            let r := minimaxS fuel ai_mark human_mark true b1
            let b2 := r.2.set m Cell.empty
            (min acc.1 r.1, b2))
          (999, board)

/-- `best_move_minimax` with the mutate-and-undo pair embedded as state
passing, as in `minimaxS`. -/
def best_move_minimaxS (board : Board) (ai_mark : Cell) : Option Nat × Board :=
  let human_mark := if ai_mark = Cell.X then Cell.O else Cell.X
  let r := (available_moves board).foldl
    (fun acc m =>
      let b1 := acc.2.2.set m ai_mark
      let r := minimaxS board.length ai_mark human_mark false b1
      let b2 := r.2.set m Cell.empty
      if r.1 > acc.1 then (r.1, some m, b2) else (acc.1, acc.2.1, b2))
    (-999, none, board)
  (r.2.1, r.2.2)

def flipMark (c : Cell) : Cell := if c = Cell.X then Cell.O else Cell.X

/-- The spec's Hard-vs-Hard simulation: starting from `board` with `p` to
move, each player in turn plays `best_move_minimax` for their own mark
until the round is over.  `fuel` bounds the number of plies (9 suffices
from any 9-cell board). -/
def hard_playout : Nat → Board → Cell → Outcome
  | 0, board, _ =>
    match evaluate board with
    | Outcome.win w => Outcome.win w
    | Outcome.tie => Outcome.tie
    | Outcome.inProgress => Outcome.inProgress
  | fuel + 1, board, p =>
    match evaluate board with
    | Outcome.win w => Outcome.win w
    | Outcome.tie => Outcome.tie
    | Outcome.inProgress =>
      match best_move_minimax board p with
      | some m => hard_playout fuel (board.set m p) (flipMark p)
      | none => Outcome.inProgress

/-! ## Move-list lemmas -/

theorem foldl_filter_eq {α β : Type} (p : α → Bool) (g : β → α → β) :
    ∀ (l : List α) (init : β),
      (l.filter p).foldl g init
        = l.foldl (fun acc x => cond (p x) (g acc x) acc) init := by
  intro l
  induction l with
  | nil => intro init; rfl
  | cons x t ih =>
    intro init
    rw [List.filter_cons]
    cases hp : p x with
    | true => simp [hp, ih]
    | false => simp [hp, ih]

theorem available_moves_enumFrom (b : Board) :
    ∀ k : Nat,
      ((List.enumFrom k b).filter (fun q => q.2 == Cell.empty)).map Prod.fst
        = ((List.range b.length).filter
            (fun i => cellAt b i == Cell.empty)).map (fun i => i + k) := by
  induction b with
  | nil => intro k; rfl
  | cons c t ih =>
    intro k
    rw [List.enumFrom_cons, List.length_cons, List.range_succ_eq_map]
    have htail :
        (List.filter (fun i => cellAt (c :: t) i == Cell.empty)
          (List.map Nat.succ (List.range t.length))).map (fun i => i + k)
        = ((List.range t.length).filter
            (fun i => cellAt t i == Cell.empty)).map (fun i => i + (k + 1)) := by
      rw [List.filter_map, List.map_map]
      have h1 : ((fun i => cellAt (c :: t) i == Cell.empty) ∘ Nat.succ)
          = (fun i => cellAt t i == Cell.empty) := by
        funext i; rfl
      have h2 : ((fun i => i + k) ∘ Nat.succ) = (fun i => i + (k + 1)) := by
        funext i
        simp only [Function.comp_apply, Nat.succ_eq_add_one]
        omega
      rw [h1, h2]
    have h0 : cellAt (c :: t) 0 = c := rfl
    cases hc : (c == Cell.empty) with
    | true =>
      rw [List.filter_cons, List.filter_cons]
      simp only [h0, hc, if_pos trivial, List.map_cons]
      rw [ih (k + 1), htail]
      simp
    | false =>
      rw [List.filter_cons, List.filter_cons]
      simp only [h0, hc, Bool.false_eq_true, if_neg not_false]
      rw [ih (k + 1), htail]

theorem available_moves_eq_filter_range (b : Board) :
    available_moves b
      = (List.range b.length).filter (fun i => cellAt b i == Cell.empty) := by
  have h := available_moves_enumFrom b 0
  unfold available_moves
  rw [List.enum]
  rw [h]
  have h3 : (fun i => i + 0) = (id : Nat → Nat) := by funext i; simp
  rw [h3, List.map_id]

theorem available_moves_sorted (b : Board) :
    (available_moves b).Pairwise (· < ·) := by
  rw [available_moves_eq_filter_range]
  exact (List.pairwise_lt_range b.length).filter _

theorem mem_available_moves {b : Board} {m : Nat} :
    m ∈ available_moves b ↔ m < b.length ∧ cellAt b m = Cell.empty := by
  rw [available_moves_eq_filter_range, List.mem_filter, List.mem_range,
    beq_iff_eq]

theorem available_moves_ne_nil {b : Board} (h : is_board_full b = false) :
    available_moves b ≠ [] := by
  have hx : ∃ i : Nat, i < b.length ∧ cellAt b i = Cell.empty := by
    by_contra hn
    push_neg at hn
    have hfull : is_board_full b = true := by
      simp only [is_board_full, List.all_eq_true, bne_iff_ne, ne_eq]
      intro c hc hce
      obtain ⟨i, hi, hget⟩ := List.mem_iff_getElem.mp hc
      have hni := hn i hi
      rw [cellAt, List.getD_eq_getElem b Cell.empty hi, hget] at hni
      exact hni hce
    rw [h] at hfull; exact absurd hfull (by simp)
  obtain ⟨i, hi, hc⟩ := hx
  intro hnil
  have hmem : i ∈ available_moves b := mem_available_moves.mpr ⟨hi, hc⟩
  rw [hnil] at hmem
  exact absurd hmem (List.not_mem_nil i)

theorem cellAt_set_self {b : Board} {m : Nat} (hm : m < b.length) (v : Cell) :
    cellAt (b.set m v) m = v := by
  rw [cellAt, List.getD_eq_getElem (b.set m v) Cell.empty
    (by rw [List.length_set]; exact hm)]
  exact List.getElem_set_self _

theorem cellAt_set_ne {b : Board} {m i : Nat} (h : m ≠ i) (v : Cell) :
    cellAt (b.set m v) i = cellAt b i := by
  unfold cellAt
  rw [List.getD_eq_getElem?_getD, List.getD_eq_getElem?_getD,
    List.getElem?_set, if_neg h]

theorem available_moves_set_length {b : Board} {m : Nat} {v : Cell}
    (hm : m ∈ available_moves b) (hv : v ≠ Cell.empty) :
    (available_moves (b.set m v)).length < (available_moves b).length := by
  obtain ⟨hlt, _⟩ := mem_available_moves.mp hm
  have hlen : (b.set m v).length = b.length := List.length_set b m v
  have hsub : List.Sublist (available_moves (b.set m v)) (available_moves b) := by
    rw [available_moves_eq_filter_range, available_moves_eq_filter_range, hlen]
    apply List.monotone_filter_right
    intro i hi
    by_cases him : m = i
    · subst him
      rw [show cellAt (b.set m v) m = v from cellAt_set_self hlt v] at hi
      rw [beq_iff_eq] at hi
      exact absurd hi hv
    · rw [cellAt_set_ne him] at hi
      exact hi
  have hne : available_moves (b.set m v) ≠ available_moves b := by
    intro heq
    have h1 : m ∈ available_moves (b.set m v) := by rw [heq]; exact hm
    obtain ⟨_, hc⟩ := mem_available_moves.mp h1
    rw [cellAt_set_self hlt v] at hc
    exact hv hc
  have hle := hsub.length_le
  rcases Nat.lt_or_ge (available_moves (b.set m v)).length
      (available_moves b).length with hlt2 | hge
  · exact hlt2
  · exact absurd (hsub.eq_of_length (Nat.le_antisymm hle hge)) hne

/-! ## Fold helpers and basic minimax facts -/

theorem foldl_max_spec (f : Nat → Int) :
    ∀ (l : List Nat) (x : Int),
      (l.foldl (fun b m => max b (f m)) x = x ∧ ∀ m ∈ l, f m ≤ x) ∨
      (∃ m0 ∈ l, l.foldl (fun b m => max b (f m)) x = f m0 ∧ x ≤ f m0 ∧
        ∀ m ∈ l, f m ≤ f m0) := by
  intro l
  induction l with
  | nil => intro x; exact Or.inl ⟨rfl, by simp⟩
  | cons m t ih =>
    intro x
    rw [List.foldl_cons]
    rcases le_or_lt (f m) x with hmx | hxm
    · have hmax : max x (f m) = x := max_eq_left hmx
      rw [hmax]
      rcases ih x with ⟨heq, hall⟩ | ⟨m0, hm0, heq, hge, hall⟩
      · exact Or.inl ⟨heq, by
          intro m' hm'
          rcases List.mem_cons.mp hm' with h | h
          · rw [h]; exact hmx
          · exact hall m' h⟩
      · refine Or.inr ⟨m0, List.mem_cons_of_mem m hm0, heq, hge, ?_⟩
        intro m' hm'
        rcases List.mem_cons.mp hm' with h | h
        · rw [h]; exact le_trans hmx hge
        · exact hall m' h
    · have hmax : max x (f m) = f m := max_eq_right (le_of_lt hxm)
      rw [hmax]
      rcases ih (f m) with ⟨heq, hall⟩ | ⟨m0, hm0, heq, hge, hall⟩
      · refine Or.inr ⟨m, List.mem_cons_self m t, heq, le_of_lt hxm, ?_⟩
        intro m' hm'
        rcases List.mem_cons.mp hm' with h | h
        · rw [h]
        · exact hall m' h
      · refine Or.inr ⟨m0, List.mem_cons_of_mem m hm0, heq,
          le_trans (le_of_lt hxm) hge, ?_⟩
        intro m' hm'
        rcases List.mem_cons.mp hm' with h | h
        · rw [h]; exact hge
        · exact hall m' h

theorem foldl_min_spec (f : Nat → Int) :
    ∀ (l : List Nat) (x : Int),
      (l.foldl (fun b m => min b (f m)) x = x ∧ ∀ m ∈ l, x ≤ f m) ∨
      (∃ m0 ∈ l, l.foldl (fun b m => min b (f m)) x = f m0 ∧ f m0 ≤ x ∧
        ∀ m ∈ l, f m0 ≤ f m) := by
  intro l
  induction l with
  | nil => intro x; exact Or.inl ⟨rfl, by simp⟩
  | cons m t ih =>
    intro x
    rw [List.foldl_cons]
    rcases le_or_lt x (f m) with hxm | hmx
    · have hmin : min x (f m) = x := min_eq_left hxm
      rw [hmin]
      rcases ih x with ⟨heq, hall⟩ | ⟨m0, hm0, heq, hge, hall⟩
      · exact Or.inl ⟨heq, by
          intro m' hm'
          rcases List.mem_cons.mp hm' with h | h
          · rw [h]; exact hxm
          · exact hall m' h⟩
      · refine Or.inr ⟨m0, List.mem_cons_of_mem m hm0, heq, hge, ?_⟩
        intro m' hm'
        rcases List.mem_cons.mp hm' with h | h
        · rw [h]; exact le_trans hge hxm
        · exact hall m' h
    · have hmin : min x (f m) = f m := min_eq_right (le_of_lt hmx)
      rw [hmin]
      rcases ih (f m) with ⟨heq, hall⟩ | ⟨m0, hm0, heq, hge, hall⟩
      · refine Or.inr ⟨m, List.mem_cons_self m t, heq, le_of_lt hmx, ?_⟩
        intro m' hm'
        rcases List.mem_cons.mp hm' with h | h
        · rw [h]
        · exact hall m' h
      · refine Or.inr ⟨m0, List.mem_cons_of_mem m hm0, heq,
          le_trans hge (le_of_lt hmx), ?_⟩
        intro m' hm'
        rcases List.mem_cons.mp hm' with h | h
        · rw [h]; exact hge
        · exact hall m' h

theorem minimax_value_cases :
    ∀ (fuel : Nat) (b : Board) (ai hm : Cell) (mx : Bool),
      minimax fuel b ai hm mx = -10 ∨ minimax fuel b ai hm mx = 0 ∨
        minimax fuel b ai hm mx = 10 := by
  intro fuel
  induction fuel with
  | zero =>
    intro b ai hm mx
    unfold minimax
    by_cases h1 : check_winner b = some ai
    · rw [if_pos h1]; exact Or.inr (Or.inr rfl)
    · rw [if_neg h1]
      by_cases h2 : check_winner b = some hm
      · rw [if_pos h2]; exact Or.inl rfl
      · rw [if_neg h2]; exact Or.inr (Or.inl rfl)
  | succ fuel ih =>
    intro b ai hm mx
    by_cases h1 : check_winner b = some ai
    · simp [minimax, if_pos h1]
    · by_cases h2 : check_winner b = some hm
      · simp [minimax, if_neg h1, if_pos h2]
      · by_cases h3 : is_board_full b = true
        · simp [minimax, if_neg h1, if_neg h2, if_pos h3]
        · have hne : available_moves b ≠ [] :=
            available_moves_ne_nil (by simpa using h3)
          cases mx with
          | true =>
            simp only [minimax, if_neg h1, if_neg h2, if_neg h3,
              eq_self_iff_true, if_true]
            rcases foldl_max_spec
                (fun m => minimax fuel (b.set m ai) ai hm false)
                (available_moves b) (-999) with ⟨_, hall⟩ | ⟨m0, _, heq, _, _⟩
            · obtain ⟨m, hm'⟩ := List.exists_mem_of_ne_nil _ hne
              have hh := hall m hm'
              rcases ih (b.set m ai) ai hm false with h | h | h <;>
                rw [h] at hh <;> omega
            · rw [heq]
              exact ih (b.set m0 ai) ai hm false
          | false =>
            simp only [minimax, if_neg h1, if_neg h2, if_neg h3,
              Bool.false_eq_true, if_false]
            rcases foldl_min_spec
                (fun m => minimax fuel (b.set m hm) ai hm true)
                (available_moves b) 999 with ⟨_, hall⟩ | ⟨m0, _, heq, _, _⟩
            · obtain ⟨m, hm'⟩ := List.exists_mem_of_ne_nil _ hne
              have hh := hall m hm'
              rcases ih (b.set m hm) ai hm true with h | h | h <;>
                rw [h] at hh <;> omega
            · rw [heq]
              exact ih (b.set m0 hm) ai hm true

theorem foldl_max_neg (f g : Nat → Int) (hfg : ∀ m, f m = -g m) :
    ∀ (l : List Nat) (x : Int),
      l.foldl (fun b m => max b (f m)) (-x) = -(l.foldl (fun b m => min b (g m)) x) := by
  intro l
  induction l with
  | nil => intro x; rfl
  | cons m t ih =>
    intro x
    rw [List.foldl_cons, List.foldl_cons]
    rw [hfg m, max_neg_neg]
    exact ih (min x (g m))

theorem check_winner_ne_some_empty (b : Board) :
    check_winner b ≠ some Cell.empty := by
  intro h
  rw [check_winner_eq_some_iff] at h
  obtain ⟨i, hi, hwon, _⟩ := h
  exact hwon.1 rfl

theorem minimax_neg :
    ∀ (fuel : Nat) (b : Board) (ai hm : Cell) (mx : Bool), ai ≠ hm →
      minimax fuel b ai hm mx = -minimax fuel b hm ai (!mx) := by
  intro fuel
  induction fuel with
  | zero =>
    intro b ai hm mx hne
    by_cases h1 : check_winner b = some ai
    · have h2 : ¬ check_winner b = some hm := by
        rw [h1]; intro hc; exact hne (Option.some.inj hc)
      simp only [minimax, if_pos h1, if_neg h2]
      decide
    · by_cases h2 : check_winner b = some hm
      · simp only [minimax, if_neg h1, if_pos h2]
      · simp only [minimax, if_neg h1, if_neg h2]
        decide
  | succ fuel ih =>
    intro b ai hm mx hne
    by_cases h1 : check_winner b = some ai
    · have h2 : ¬ check_winner b = some hm := by
        rw [h1]; intro hc; exact hne (Option.some.inj hc)
      simp only [minimax, if_pos h1, if_neg h2]
      decide
    · by_cases h2 : check_winner b = some hm
      · simp only [minimax, if_neg h1, if_pos h2]
      · by_cases h3 : is_board_full b = true
        · simp only [minimax, if_neg h1, if_neg h2, if_pos h3]
          decide
        · cases mx with
          | true =>
            simp only [minimax, if_neg h1, if_neg h2, if_neg h3, Bool.not_true,
              eq_self_iff_true, if_true, Bool.false_eq_true, if_false]
            have hx : ∀ m, minimax fuel (b.set m ai) ai hm false
                = -(minimax fuel (b.set m ai) hm ai true) := by
              intro m
              simpa using ih (b.set m ai) ai hm false hne
            rw [foldl_max_neg _ _ hx]
          | false =>
            simp only [minimax, if_neg h1, if_neg h2, if_neg h3, Bool.not_false,
              eq_self_iff_true, if_true, Bool.false_eq_true, if_false]
            have hx : ∀ m, minimax fuel (b.set m hm) hm ai false
                = -(minimax fuel (b.set m hm) ai hm true) := by
              intro m
              simpa using ih (b.set m hm) hm ai false (Ne.symm hne)
            rw [foldl_max_neg _ _ hx, neg_neg]

/-! ## A verified value table for the Hard search

Evaluating the full minimax tree inside the kernel is infeasible, so the
Hard-mode claims are settled through a memoised value table: boards are
encoded as base-3 numerals (`encode`), the exact minimax values of all
`3^9` encoded positions (for `ai_mark = X`, both for the maximising and
the minimising side to move) are stored as base-32 digit strings `TXmax`
and `TXmin`, and the kernel checks the defining minimax recurrence of
every position (`tabOK`, swept by `checkRange`).  The bridge theorems
below prove that a table satisfying the recurrence agrees with `minimax`
itself, so the table digits are the genuine search values. -/

def cellCode : Cell → Nat
  | Cell.empty => 0
  | Cell.X => 1
  | Cell.O => 2

def encode : Board → Nat
  | [] => 0
  | c :: t => cellCode c + 3 * encode t

def ocode : Option Cell → Nat
  | none => 0
  | some c => cellCode c

def trit3 (n p : Nat) : Nat := Nat.mod (Nat.div n p) 3

def dig (t k : Nat) : Nat := Nat.mod (Nat.shiftRight t (Nat.mul 5 k)) 32

def nmax (a b : Nat) : Nat := cond (Nat.ble a b) b a

def nmin (a b : Nat) : Nat := cond (Nat.ble a b) a b

/-- `WIN_LINES` with every index `i` replaced by the power `3 ^ i`. -/
def POWLINES : List (Nat × Nat × Nat) :=
  [(1,3,9), (27,81,243), (729,2187,6561),
   (1,27,729), (3,81,2187), (9,243,6561),
   (1,81,6561), (9,81,729)]

/-- `3 ^ i` for the nine cell indices. -/
def POW3 : List Nat := [1, 3, 9, 27, 81, 243, 729, 2187, 6561]

def lineV (n : Nat) (l : Nat × Nat × Nat) : Nat :=
  let a := trit3 n l.1
  let b := trit3 n l.2.1
  let c := trit3 n l.2.2
  cond (Nat.beq a b && Nat.beq b c) a 0

def digWinner (n : Nat) : List (Nat × Nat × Nat) → Nat
  | [] => 0
  | l :: ls =>
    let v := lineV n l
    cond (Nat.beq v 0) (digWinner n ls) v

def chainMax (tmin n : Nat) : Nat :=
  POW3.foldl
    (fun acc p =>
      cond (Nat.beq (trit3 n p) 0) (nmax acc (dig tmin (Nat.add n p))) acc) 0

def chainMin (tmax n : Nat) : Nat :=
  POW3.foldl
    (fun acc p =>
      cond (Nat.beq (trit3 n p) 0)
        (nmin acc (dig tmax (Nat.add n (Nat.mul 2 p)))) acc) 20

def hasEmpty (n : Nat) : Bool :=
  POW3.any (fun p => Nat.beq (trit3 n p) 0)

/-- The minimax recurrence at encoded position `n`, with digits storing
`value + 10`: a first won line for `X` forces digit `20`, one for `O`
forces digit `0`, a full drawn board forces `10`, and otherwise the
maximising digit is the `nmax`-fold of the minimising digits of the `X`
children (and dually for the minimising digit with the `O` children). -/
def tabOK (tmax tmin n : Nat) : Bool :=
  let w := digWinner n POWLINES
  cond (Nat.beq w 1)
    (Nat.beq (dig tmax n) 20 && Nat.beq (dig tmin n) 20)
    (cond (Nat.beq w 2)
      (Nat.beq (dig tmax n) 0 && Nat.beq (dig tmin n) 0)
      (cond (hasEmpty n)
        (Nat.beq (dig tmax n) (chainMax tmin n) &&
          Nat.beq (dig tmin n) (chainMin tmax n))
        (Nat.beq (dig tmax n) 10 && Nat.beq (dig tmin n) 10)))

/-- Balanced sweep of `f` over `[lo, hi)`. -/
def checkRange (f : Nat → Bool) : Nat → Nat → Nat → Bool
  | 0, lo, hi => Nat.ble hi lo
  | fuel + 1, lo, hi =>
    cond (Nat.ble hi lo) true
      (cond (Nat.beq hi (Nat.add lo 1)) (f lo)
        (checkRange f fuel lo (Nat.div (Nat.add lo hi) 2) &&
          checkRange f fuel (Nat.div (Nat.add lo hi) 2) hi))

theorem checkRange_sound (f : Nat → Bool) :
    ∀ (fuel lo hi : Nat), checkRange f fuel lo hi = true →
      ∀ n, lo ≤ n → n < hi → f n = true := by
  intro fuel
  induction fuel with
  | zero =>
    intro lo hi h n hlo hhi
    unfold checkRange at h
    have := Nat.le_of_ble_eq_true h
    omega
  | succ fuel ih =>
    intro lo hi h n hlo hhi
    unfold checkRange at h
    cases h1 : Nat.ble hi lo with
    | true =>
      have := Nat.le_of_ble_eq_true h1
      omega
    | false =>
      rw [h1, cond_false] at h
      cases h2 : Nat.beq hi (Nat.add lo 1) with
      | true =>
        rw [h2, cond_true] at h
        have : hi = lo + 1 := Nat.eq_of_beq_eq_true h2
        have : n = lo := by omega
        rw [this]
        exact h
      | false =>
        rw [h2, cond_false] at h
        rw [Bool.and_eq_true] at h
        rcases Nat.lt_or_ge n (Nat.div (Nat.add lo hi) 2) with hn | hn
        · exact ih lo _ h.1 n hlo hn
        · exact ih _ hi h.2 n hn hhi

theorem cellCode_lt (c : Cell) : cellCode c < 3 := by
  cases c <;> decide

theorem cellCode_eq_zero_iff (c : Cell) : cellCode c = 0 ↔ c = Cell.empty := by
  cases c <;> simp [cellCode]

theorem beq_cellCode_zero (c : Cell) :
    Nat.beq (cellCode c) 0 = (c == Cell.empty) := by
  cases c <;> decide

theorem trit_encode (b : Board) :
    ∀ i : Nat, trit3 (encode b) (3 ^ i) = cellCode (cellAt b i) := by
  induction b with
  | nil =>
    intro i
    show 0 / 3 ^ i % 3 = cellCode (cellAt [] i)
    rw [Nat.zero_div]
    rfl
  | cons c t ih =>
    intro i
    cases i with
    | zero =>
      show (cellCode c + 3 * encode t) / 1 % 3 = cellCode c
      rw [Nat.div_one, Nat.add_mul_mod_self_left]
      exact Nat.mod_eq_of_lt (cellCode_lt c)
    | succ i =>
      show (cellCode c + 3 * encode t) / 3 ^ (i + 1) % 3
        = cellCode (cellAt t i)
      rw [pow_succ', ← Nat.div_div_eq_div_mul]
      rw [Nat.add_mul_div_left _ _ (by omega : 0 < 3)]
      rw [Nat.div_eq_of_lt (cellCode_lt c), Nat.zero_add]
      exact ih i

theorem encode_lt (b : Board) : encode b < 3 ^ b.length := by
  induction b with
  | nil => decide
  | cons c t ih =>
    have hc := cellCode_lt c
    rw [List.length_cons, pow_succ']
    show cellCode c + 3 * encode t < 3 * 3 ^ t.length
    omega

theorem encode_set (b : Board) :
    ∀ (m : Nat) (v : Cell), m < b.length → cellAt b m = Cell.empty →
      encode (b.set m v) = encode b + cellCode v * 3 ^ m := by
  induction b with
  | nil => intro m v hm; simp at hm
  | cons c t ih =>
    intro m v hm hc
    cases m with
    | zero =>
      have h0 : c = Cell.empty := hc
      show cellCode v + 3 * encode t
        = cellCode c + 3 * encode t + cellCode v * 3 ^ 0
      rw [h0, pow_zero]
      show cellCode v + 3 * encode t
        = 0 + 3 * encode t + cellCode v * 1
      omega
    | succ m =>
      have hm' : m < t.length := by
        rw [List.length_cons] at hm; omega
      have hc' : cellAt t m = Cell.empty := hc
      show cellCode c + 3 * encode (t.set m v)
        = cellCode c + 3 * encode t + cellCode v * 3 ^ (m + 1)
      rw [ih m v hm' hc', pow_succ']
      ring

theorem lineV_cell (x y z : Cell) :
    (cond (Nat.beq (cellCode x) (cellCode y) && Nat.beq (cellCode y) (cellCode z))
      (cellCode x) 0)
      = cond ((x != Cell.empty) && (x == y) && (y == z)) (cellCode x) 0 := by
  cases x <;> cases y <;> cases z <;> decide

theorem lineV_encode (b : Board) (l : Nat × Nat × Nat) :
    lineV (encode b) (3 ^ l.1, 3 ^ l.2.1, 3 ^ l.2.2)
      = cond (lineWinner b l) (cellCode (cellAt b l.1)) 0 := by
  show cond (Nat.beq (trit3 (encode b) (3 ^ l.1)) (trit3 (encode b) (3 ^ l.2.1))
        && Nat.beq (trit3 (encode b) (3 ^ l.2.1)) (trit3 (encode b) (3 ^ l.2.2)))
      (trit3 (encode b) (3 ^ l.1)) 0
    = cond (lineWinner b l) (cellCode (cellAt b l.1)) 0
  rw [trit_encode, trit_encode, trit_encode]
  exact lineV_cell _ _ _

theorem check_winner_eq_map (b : Board) :
    check_winner b = (WIN_LINES.find? (lineWinner b)).map (fun l => cellAt b l.1) := by
  unfold check_winner
  cases hf : WIN_LINES.find? (lineWinner b) <;> simp

theorem digWinner_powlines (b : Board) :
    ∀ ls : List (Nat × Nat × Nat),
      digWinner (encode b) (ls.map (fun l => (3 ^ l.1, 3 ^ l.2.1, 3 ^ l.2.2)))
        = ocode ((ls.find? (lineWinner b)).map (fun l => cellAt b l.1)) := by
  intro ls
  induction ls with
  | nil => rfl
  | cons l ls ih =>
    rw [List.map_cons]
    show (let v := lineV (encode b) (3 ^ l.1, 3 ^ l.2.1, 3 ^ l.2.2)
      cond (Nat.beq v 0)
        (digWinner (encode b)
          (ls.map (fun l => (3 ^ l.1, 3 ^ l.2.1, 3 ^ l.2.2)))) v)
      = ocode (((l :: ls).find? (lineWinner b)).map (fun l => cellAt b l.1))
    rw [lineV_encode]
    cases hlw : lineWinner b l with
    | true =>
      simp only [cond_true]
      have hne : cellAt b l.1 ≠ Cell.empty := by
        have hx := (lineWinner_iff b l).mp hlw
        exact fun hc => hx.1 hc
      have hbeq : Nat.beq (cellCode (cellAt b l.1)) 0 = false := by
        rw [beq_cellCode_zero]
        simp only [beq_eq_false_iff_ne, ne_eq]
        exact hne
      rw [hbeq]
      rw [List.find?_cons_of_pos _ hlw]
      rfl
    | false =>
      simp only [cond_false]
      have hbeq : Nat.beq (0 : Nat) 0 = true := rfl
      rw [hbeq]
      rw [List.find?_cons_of_neg _ (by rw [hlw]; exact Bool.false_ne_true)]
      simpa using ih

theorem digWinner_check (b : Board) :
    digWinner (encode b) POWLINES = ocode (check_winner b) := by
  have hmap : WIN_LINES.map (fun l => (3 ^ l.1, 3 ^ l.2.1, 3 ^ l.2.2))
      = POWLINES := by decide
  have h := digWinner_powlines b WIN_LINES
  rw [hmap] at h
  rw [h, check_winner_eq_map]

theorem hasEmpty_encode (b : Board) (h9 : b.length = 9) :
    hasEmpty (encode b) = !is_board_full b := by
  have hmap : POW3 = (List.range 9).map (fun i => 3 ^ i) := by decide
  rw [hasEmpty, hmap, List.any_map]
  have hfun : ((fun p => Nat.beq (trit3 (encode b) p) 0) ∘ (fun i => 3 ^ i))
      = fun i => (cellAt b i == Cell.empty) := by
    funext i
    simp only [Function.comp_apply]
    rw [trit_encode, beq_cellCode_zero]
  rw [hfun]
  cases hfull : is_board_full b with
  | true =>
    simp only [Bool.not_true]
    rw [List.any_eq_false]
    intro i hi
    rw [List.mem_range] at hi
    have hnotin := (is_board_full_iff b).mp hfull
    simp only [beq_iff_eq]
    intro hc
    apply hnotin
    rw [cellAt, List.getD_eq_getElem b Cell.empty (by omega)] at hc
    rw [← hc]
    exact List.getElem_mem _
  | false =>
    simp only [Bool.not_false]
    rw [List.any_eq_true]
    have hne := available_moves_ne_nil hfull
    obtain ⟨m, hm⟩ := List.exists_mem_of_ne_nil _ hne
    obtain ⟨hm1, hm2⟩ := mem_available_moves.mp hm
    exact ⟨m, List.mem_range.mpr (by omega), by rw [beq_iff_eq]; exact hm2⟩

theorem nmax_eq_max (a b : Nat) : nmax a b = max a b := by
  unfold nmax
  cases hle : Nat.ble a b with
  | true =>
    have h := Nat.le_of_ble_eq_true hle
    simp [Nat.max_eq_right h]
  | false =>
    have h : ¬ a ≤ b := by
      intro hc
      rw [show Nat.ble a b = true from Nat.ble_eq ▸ hc] at hle
      cases hle
    simp [Nat.max_eq_left (Nat.le_of_not_le h)]

theorem nmin_eq_min (a b : Nat) : nmin a b = min a b := by
  unfold nmin
  cases hle : Nat.ble a b with
  | true =>
    have h := Nat.le_of_ble_eq_true hle
    simp [Nat.min_eq_left h]
  | false =>
    have h : ¬ a ≤ b := by
      intro hc
      rw [show Nat.ble a b = true from Nat.ble_eq ▸ hc] at hle
      cases hle
    simp [Nat.min_eq_right (Nat.le_of_not_le h)]

theorem foldl_nmax_shift (fN : Nat → Nat) :
    ∀ (l : List Nat) (a : Nat),
      List.foldl (fun acc m => max acc ((fN m : Int) - 10)) ((a : Int) - 10) l
        = ((List.foldl (fun acc m => nmax acc (fN m)) a l : Nat) : Int) - 10 := by
  intro l
  induction l with
  | nil => intro a; rfl
  | cons m t ih =>
    intro a
    rw [List.foldl_cons, List.foldl_cons]
    rw [max_sub_sub_right]
    rw [show ((a : Int) ⊔ (fN m : Int)) = ((nmax a (fN m) : Nat) : Int) by
      rw [nmax_eq_max, Nat.cast_max]]
    exact ih (nmax a (fN m))

theorem foldl_nmin_shift (fN : Nat → Nat) :
    ∀ (l : List Nat) (a : Nat),
      List.foldl (fun acc m => min acc ((fN m : Int) - 10)) ((a : Int) - 10) l
        = ((List.foldl (fun acc m => nmin acc (fN m)) a l : Nat) : Int) - 10 := by
  intro l
  induction l with
  | nil => intro a; rfl
  | cons m t ih =>
    intro a
    rw [List.foldl_cons, List.foldl_cons]
    rw [min_sub_sub_right]
    rw [show ((a : Int) ⊓ (fN m : Int)) = ((nmin a (fN m) : Nat) : Int) by
      rw [nmin_eq_min, Nat.cast_min]]
    exact ih (nmin a (fN m))

theorem foldl_max_table (fN : Nat → Nat) :
    ∀ l : List Nat, l ≠ [] →
      List.foldl (fun acc m => max acc ((fN m : Int) - 10)) (-999) l
        = ((List.foldl (fun acc m => nmax acc (fN m)) 0 l : Nat) : Int) - 10 := by
  intro l hne
  cases l with
  | nil => exact absurd rfl hne
  | cons m t =>
    rw [List.foldl_cons, List.foldl_cons]
    have h1 : max (-999 : Int) ((fN m : Int) - 10) = (fN m : Int) - 10 := by
      have := Int.natCast_nonneg (fN m)
      omega
    have h2 : nmax 0 (fN m) = fN m := by
      rw [nmax_eq_max]
      exact Nat.max_eq_right (Nat.zero_le _)
    rw [h1, h2]
    exact foldl_nmax_shift fN t (fN m)

theorem foldl_min_table (fN : Nat → Nat) :
    ∀ l : List Nat, l ≠ [] → (∀ m ∈ l, fN m ≤ 20) →
      List.foldl (fun acc m => min acc ((fN m : Int) - 10)) 999 l
        = ((List.foldl (fun acc m => nmin acc (fN m)) 20 l : Nat) : Int) - 10 := by
  intro l hne hbd
  cases l with
  | nil => exact absurd rfl hne
  | cons m t =>
    rw [List.foldl_cons, List.foldl_cons]
    have hb := hbd m (List.mem_cons_self m t)
    have h1 : min (999 : Int) ((fN m : Int) - 10) = (fN m : Int) - 10 := by
      have h20 : (fN m : Int) ≤ 20 := by exact_mod_cast hb
      omega
    have h2 : nmin 20 (fN m) = fN m := by
      rw [nmin_eq_min]
      exact Nat.min_eq_right hb
    rw [h1, h2]
    exact foldl_nmin_shift fN t (fN m)

theorem foldl_congr_mem {α β : Type} (l : List α) (f g : β → α → β) :
    ∀ (init : β), (∀ (acc : β) (x : α), x ∈ l → f acc x = g acc x) →
      l.foldl f init = l.foldl g init := by
  induction l with
  | nil => intro init _; rfl
  | cons x t ih =>
    intro init h
    rw [List.foldl_cons, List.foldl_cons, h init x (List.mem_cons_self x t)]
    exact ih (g init x) (fun acc y hy => h acc y (List.mem_cons_of_mem x hy))

theorem chainMax_eq (tmin : Nat) (b : Board) (h9 : b.length = 9) :
    chainMax tmin (encode b)
      = (available_moves b).foldl
          (fun acc m => nmax acc (dig tmin (encode b + 3 ^ m))) 0 := by
  unfold chainMax
  have hmap : POW3 = (List.range 9).map (fun i => 3 ^ i) := by decide
  rw [hmap, List.foldl_map]
  have hfun : (fun (acc : Nat) (i : Nat) =>
      cond (Nat.beq (trit3 (encode b) (3 ^ i)) 0)
        (nmax acc (dig tmin (Nat.add (encode b) (3 ^ i)))) acc)
      = fun acc i => cond (cellAt b i == Cell.empty)
          (nmax acc (dig tmin (encode b + 3 ^ i))) acc := by
    funext acc i
    rw [trit_encode, beq_cellCode_zero]
    rfl
  rw [hfun]
  rw [← foldl_filter_eq (fun i => cellAt b i == Cell.empty)
      (fun acc i => nmax acc (dig tmin (encode b + 3 ^ i))) (List.range 9)]
  rw [show (9 : Nat) = b.length from h9.symm, ← available_moves_eq_filter_range]

theorem chainMin_eq (tmax : Nat) (b : Board) (h9 : b.length = 9) :
    chainMin tmax (encode b)
      = (available_moves b).foldl
          (fun acc m => nmin acc (dig tmax (encode b + 2 * 3 ^ m))) 20 := by
  unfold chainMin
  have hmap : POW3 = (List.range 9).map (fun i => 3 ^ i) := by decide
  rw [hmap, List.foldl_map]
  have hfun : (fun (acc : Nat) (i : Nat) =>
      cond (Nat.beq (trit3 (encode b) (3 ^ i)) 0)
        (nmin acc (dig tmax (Nat.add (encode b) (Nat.mul 2 (3 ^ i))))) acc)
      = fun acc i => cond (cellAt b i == Cell.empty)
          (nmin acc (dig tmax (encode b + 2 * 3 ^ i))) acc := by
    funext acc i
    rw [trit_encode, beq_cellCode_zero]
    rfl
  rw [hfun]
  rw [← foldl_filter_eq (fun i => cellAt b i == Cell.empty)
      (fun acc i => nmin acc (dig tmax (encode b + 2 * 3 ^ i))) (List.range 9)]
  rw [show (9 : Nat) = b.length from h9.symm, ← available_moves_eq_filter_range]

theorem tabOK_cases (tmax tmin : Nat) (b : Board) (h9 : b.length = 9)
    (hOK : tabOK tmax tmin (encode b) = true) :
    (check_winner b = some Cell.X →
      dig tmax (encode b) = 20 ∧ dig tmin (encode b) = 20) ∧
    (check_winner b = some Cell.O →
      dig tmax (encode b) = 0 ∧ dig tmin (encode b) = 0) ∧
    (check_winner b = none → is_board_full b = true →
      dig tmax (encode b) = 10 ∧ dig tmin (encode b) = 10) ∧
    (check_winner b = none → is_board_full b = false →
      dig tmax (encode b) = chainMax tmin (encode b) ∧
      dig tmin (encode b) = chainMin tmax (encode b)) := by
  unfold tabOK at hOK
  rw [digWinner_check b] at hOK
  refine ⟨?_, ?_, ?_, ?_⟩
  · intro hw
    rw [hw] at hOK
    simp only [ocode, cellCode] at hOK
    rw [show Nat.beq 1 1 = true from rfl, cond_true, Bool.and_eq_true] at hOK
    exact ⟨Nat.eq_of_beq_eq_true hOK.1, Nat.eq_of_beq_eq_true hOK.2⟩
  · intro hw
    rw [hw] at hOK
    simp only [ocode, cellCode] at hOK
    rw [show Nat.beq 2 1 = false from rfl, cond_false,
      show Nat.beq 2 2 = true from rfl, cond_true, Bool.and_eq_true] at hOK
    exact ⟨Nat.eq_of_beq_eq_true hOK.1, Nat.eq_of_beq_eq_true hOK.2⟩
  · intro hw hfull
    rw [hw] at hOK
    simp only [ocode] at hOK
    rw [show Nat.beq 0 1 = false from rfl, cond_false,
      show Nat.beq 0 2 = false from rfl, cond_false,
      hasEmpty_encode b h9, hfull] at hOK
    rw [show (!true) = false from rfl, cond_false, Bool.and_eq_true] at hOK
    exact ⟨Nat.eq_of_beq_eq_true hOK.1, Nat.eq_of_beq_eq_true hOK.2⟩
  · intro hw hfull
    rw [hw] at hOK
    simp only [ocode] at hOK
    rw [show Nat.beq 0 1 = false from rfl, cond_false,
      show Nat.beq 0 2 = false from rfl, cond_false,
      hasEmpty_encode b h9, hfull] at hOK
    rw [show (!false) = true from rfl, cond_true, Bool.and_eq_true] at hOK
    exact ⟨Nat.eq_of_beq_eq_true hOK.1, Nat.eq_of_beq_eq_true hOK.2⟩

theorem minimax_eq_dig (tmax tmin : Nat)
    (hval : ∀ k, k < 19683 → tabOK tmax tmin k = true) :
    ∀ (fuel : Nat) (b : Board), b.length = 9 →
      (available_moves b).length ≤ fuel →
      minimax fuel b Cell.X Cell.O true = (dig tmax (encode b) : Int) - 10 ∧
      minimax fuel b Cell.X Cell.O false = (dig tmin (encode b) : Int) - 10 := by
  intro fuel
  induction fuel with
  | zero =>
    intro b h9 hmv
    have hOK := hval (encode b) (by
      have h := encode_lt b
      rw [h9] at h
      norm_num at h
      exact h)
    obtain ⟨cX, cO, cT, cR⟩ := tabOK_cases tmax tmin b h9 hOK
    have hnil : available_moves b = [] :=
      List.length_eq_zero.mp (Nat.le_zero.mp hmv)
    have hfull : is_board_full b = true := by
      by_contra hc
      exact available_moves_ne_nil (by simpa using hc) hnil
    cases hcw : check_winner b with
    | none =>
      obtain ⟨d1, d2⟩ := cT hcw hfull
      have hne1 : ¬ check_winner b = some Cell.X := by rw [hcw]; simp
      have hne2 : ¬ check_winner b = some Cell.O := by rw [hcw]; simp
      constructor
      · simp only [minimax, if_neg hne1, if_neg hne2]
        rw [d1]; decide
      · simp only [minimax, if_neg hne1, if_neg hne2]
        rw [d2]; decide
    | some w =>
      cases w with
      | empty => exact absurd hcw (check_winner_ne_some_empty b)
      | X =>
        obtain ⟨d1, d2⟩ := cX hcw
        constructor
        · simp only [minimax, if_pos hcw]
          rw [d1]; decide
        · simp only [minimax, if_pos hcw]
          rw [d2]; decide
      | O =>
        obtain ⟨d1, d2⟩ := cO hcw
        have hne1 : ¬ check_winner b = some Cell.X := by rw [hcw]; simp
        constructor
        · simp only [minimax, if_neg hne1, if_pos hcw]
          rw [d1]; decide
        · simp only [minimax, if_neg hne1, if_pos hcw]
          rw [d2]; decide
  | succ fuel ih =>
    intro b h9 hmv
    have hOK := hval (encode b) (by
      have h := encode_lt b
      rw [h9] at h
      norm_num at h
      exact h)
    obtain ⟨cX, cO, cT, cR⟩ := tabOK_cases tmax tmin b h9 hOK
    cases hcw : check_winner b with
    | some w =>
      cases w with
      | empty => exact absurd hcw (check_winner_ne_some_empty b)
      | X =>
        obtain ⟨d1, d2⟩ := cX hcw
        constructor
        · simp only [minimax, if_pos hcw]
          rw [d1]; decide
        · simp only [minimax, if_pos hcw]
          rw [d2]; decide
      | O =>
        obtain ⟨d1, d2⟩ := cO hcw
        have hne1 : ¬ check_winner b = some Cell.X := by rw [hcw]; simp
        constructor
        · simp only [minimax, if_neg hne1, if_pos hcw]
          rw [d1]; decide
        · simp only [minimax, if_neg hne1, if_pos hcw]
          rw [d2]; decide
    | none =>
      have hne1 : ¬ check_winner b = some Cell.X := by rw [hcw]; simp
      have hne2 : ¬ check_winner b = some Cell.O := by rw [hcw]; simp
      by_cases hfull : is_board_full b = true
      · obtain ⟨d1, d2⟩ := cT hcw hfull
        constructor
        · simp only [minimax, if_neg hne1, if_neg hne2, if_pos hfull]
          rw [d1]; decide
        · simp only [minimax, if_neg hne1, if_neg hne2, if_pos hfull]
          rw [d2]; decide
      · have hfull' : is_board_full b = false := by simpa using hfull
        obtain ⟨d1, d2⟩ := cR hcw hfull'
        have hne : available_moves b ≠ [] := available_moves_ne_nil hfull'
        have hchildX : ∀ m ∈ available_moves b,
            minimax fuel (b.set m Cell.X) Cell.X Cell.O false
              = (dig tmin (encode b + 3 ^ m) : Int) - 10 := by
          intro m hm
          obtain ⟨hlt, hcm⟩ := mem_available_moves.mp hm
          have h9' : (b.set m Cell.X).length = 9 := by
            rw [List.length_set]; exact h9
          have hlen : (available_moves (b.set m Cell.X)).length ≤ fuel := by
            have := available_moves_set_length hm
              (by decide : Cell.X ≠ Cell.empty)
            omega
          have henc : encode (b.set m Cell.X) = encode b + 3 ^ m := by
            rw [encode_set b m Cell.X hlt hcm]
            simp [cellCode]
          have hh := (ih (b.set m Cell.X) h9' hlen).2
          rw [henc] at hh
          exact hh
        have hchildO : ∀ m ∈ available_moves b,
            minimax fuel (b.set m Cell.O) Cell.X Cell.O true
              = (dig tmax (encode b + 2 * 3 ^ m) : Int) - 10 := by
          intro m hm
          obtain ⟨hlt, hcm⟩ := mem_available_moves.mp hm
          have h9' : (b.set m Cell.O).length = 9 := by
            rw [List.length_set]; exact h9
          have hlen : (available_moves (b.set m Cell.O)).length ≤ fuel := by
            have := available_moves_set_length hm
              (by decide : Cell.O ≠ Cell.empty)
            omega
          have henc : encode (b.set m Cell.O) = encode b + 2 * 3 ^ m := by
            rw [encode_set b m Cell.O hlt hcm]
            simp [cellCode]
          have hh := (ih (b.set m Cell.O) h9' hlen).1
          rw [henc] at hh
          exact hh
        constructor
        · simp only [minimax, if_neg hne1, if_neg hne2, if_neg hfull,
            eq_self_iff_true, if_true]
          rw [d1, chainMax_eq tmin b h9]
          rw [← foldl_max_table (fun m => dig tmin (encode b + 3 ^ m))
            (available_moves b) hne]
          apply foldl_congr_mem
          intro acc m hm
          rw [hchildX m hm]
        · simp only [minimax, if_neg hne1, if_neg hne2, if_neg hfull,
            Bool.false_eq_true, if_false]
          rw [d2, chainMin_eq tmax b h9]
          have hbound : ∀ m ∈ available_moves b,
              dig tmax (encode b + 2 * 3 ^ m) ≤ 20 := by
            intro m hm
            have hh := hchildO m hm
            rcases minimax_value_cases fuel (b.set m Cell.O) Cell.X Cell.O true
              with hv | hv | hv <;>
              rw [hv] at hh <;> omega
          rw [← foldl_min_table (fun m => dig tmax (encode b + 2 * 3 ^ m))
            (available_moves b) hne hbound]
          apply foldl_congr_mem
          intro acc m hm
          rw [hchildO m hm]

/-! ## The first-strict-improvement fold of `best_move_minimax` -/

theorem bm_fold_spec (f : Nat → Int) :
    ∀ (l : List Nat) (v : Int) (m0 : Option Nat),
      (let r := l.foldl
        (fun acc m => if f m > acc.1 then (f m, some m) else acc) (v, m0)
       (r = (v, m0) ∧ ∀ m ∈ l, f m ≤ v) ∨
       (∃ m', r.2 = some m' ∧ r.1 = f m' ∧ v < f m' ∧
         ∃ l1 l2, l = l1 ++ m' :: l2 ∧
           (∀ m ∈ l1, f m < f m') ∧ (∀ m ∈ l2, f m ≤ f m'))) := by
  intro l
  induction l with
  | nil => intro v m0; exact Or.inl ⟨rfl, by simp⟩
  | cons m t ih =>
    intro v m0
    rw [List.foldl_cons]
    by_cases hgt : f m > v
    · rw [if_pos hgt]
      rcases ih (f m) (some m) with ⟨heq, hall⟩ | ⟨m', h2, h1, hlt, l1, l2, hsplit, hl1, hl2⟩
      · refine Or.inr ⟨m, ?_, ?_, hgt, [], t, by simp, by simp, ?_⟩
        · rw [heq]
        · rw [heq]
        · intro x hx; exact hall x hx
      · refine Or.inr ⟨m', h2, h1, lt_trans hgt hlt, m :: l1, l2, by simp [hsplit], ?_, hl2⟩
        intro x hx
        rcases List.mem_cons.mp hx with h | h
        · rw [h]; exact hlt
        · exact hl1 x h
    · rw [if_neg hgt]
      have hle : f m ≤ v := le_of_not_lt hgt
      rcases ih v m0 with ⟨heq, hall⟩ | ⟨m', h2, h1, hlt, l1, l2, hsplit, hl1, hl2⟩
      · refine Or.inl ⟨heq, ?_⟩
        intro x hx
        rcases List.mem_cons.mp hx with h | h
        · rw [h]; exact hle
        · exact hall x h
      · refine Or.inr ⟨m', h2, h1, hlt, m :: l1, l2, by simp [hsplit], ?_, hl2⟩
        intro x hx
        rcases List.mem_cons.mp hx with h | h
        · rw [h]; exact lt_of_le_of_lt hle hlt
        · exact hl1 x h

theorem best_move_minimax_spec (b : Board) (ai : Cell)
    (hne : available_moves b ≠ []) :
    ∃ m', best_move_minimax b ai = some m' ∧ m' ∈ available_moves b ∧
      (∀ m ∈ available_moves b,
        minimax b.length (b.set m ai) ai
            (if ai = Cell.X then Cell.O else Cell.X) false
          ≤ minimax b.length (b.set m' ai) ai
              (if ai = Cell.X then Cell.O else Cell.X) false) ∧
      (∀ m ∈ available_moves b,
        minimax b.length (b.set m ai) ai
            (if ai = Cell.X then Cell.O else Cell.X) false
          = minimax b.length (b.set m' ai) ai
              (if ai = Cell.X then Cell.O else Cell.X) false → m' ≤ m) := by
  have hspec := bm_fold_spec
    (fun m => minimax b.length (b.set m ai) ai
      (if ai = Cell.X then Cell.O else Cell.X) false)
    (available_moves b) (-999) none
  rcases hspec with ⟨_, hall⟩ | ⟨m', h2, h1, _, l1, l2, hsplit, hl1, hl2⟩
  · obtain ⟨m, hm⟩ := List.exists_mem_of_ne_nil _ hne
    have hh := hall m hm
    rcases minimax_value_cases b.length (b.set m ai) ai
      (if ai = Cell.X then Cell.O else Cell.X) false with hv | hv | hv <;>
      rw [hv] at hh <;> omega
  · refine ⟨m', ?_, ?_, ?_, ?_⟩
    · exact h2
    · rw [hsplit]
      exact List.mem_append_right l1 (List.mem_cons_self m' l2)
    · intro m hm
      rw [hsplit] at hm
      rcases List.mem_append.mp hm with h | h
      · exact le_of_lt (hl1 m h)
      · rcases List.mem_cons.mp h with h | h
        · rw [h]
        · exact hl2 m h
    · intro m hm heq
      rw [hsplit] at hm
      rcases List.mem_append.mp hm with h | h
      · exact absurd heq (ne_of_lt (hl1 m h))
      · rcases List.mem_cons.mp h with h | h
        · rw [h]
        · have hsorted := available_moves_sorted b
          rw [hsplit] at hsorted
          have := (List.pairwise_append.mp hsorted).2.1
          exact le_of_lt ((List.pairwise_cons.mp this).1 m h)

theorem best_move_minimax_none (b : Board) (ai : Cell)
    (hnil : available_moves b = []) :
    best_move_minimax b ai = none := by
  unfold best_move_minimax
  rw [hnil]
  rfl

def decodeCell : Nat → Cell
  | 1 => Cell.X
  | 2 => Cell.O
  | _ => Cell.empty

def tableEval (n : Nat) : Outcome :=
  let w := digWinner n POWLINES
  cond (Nat.beq w 0)
    (cond (hasEmpty n) Outcome.inProgress Outcome.tie)
    (Outcome.win (decodeCell w))

def tableMoves (n : Nat) : List Nat :=
  (List.range 9).filter (fun i => Nat.beq (trit3 n (3 ^ i)) 0)

def tableBestX (tmin n : Nat) : Option Nat :=
  ((tableMoves n).foldl
    (fun acc m =>
      let score : Int := (dig tmin (n + 3 ^ m) : Int) - 10
      if score > acc.1 then (score, some m) else acc)
    ((-999 : Int), (none : Option Nat))).2

def tableBestO (tmax n : Nat) : Option Nat :=
  ((tableMoves n).foldl
    (fun acc m =>
      let score : Int := 10 - (dig tmax (n + 2 * 3 ^ m) : Int)
      if score > acc.1 then (score, some m) else acc)
    ((-999 : Int), (none : Option Nat))).2

def tablePlayout (tmax tmin : Nat) : Nat → Nat → Cell → Outcome
  | 0, n, _ => tableEval n
  | fuel + 1, n, p =>
    match tableEval n with
    | Outcome.inProgress =>
      match (if p = Cell.X then tableBestX tmin n else tableBestO tmax n) with
      | some m =>
        tablePlayout tmax tmin fuel (n + cellCode p * 3 ^ m) (flipMark p)
      | none => Outcome.inProgress
    | o => o

theorem tableMoves_eq (b : Board) (h9 : b.length = 9) :
    tableMoves (encode b) = available_moves b := by
  unfold tableMoves
  have hfun : (fun i => Nat.beq (trit3 (encode b) (3 ^ i)) 0)
      = fun i => (cellAt b i == Cell.empty) := by
    funext i; rw [trit_encode, beq_cellCode_zero]
  rw [hfun, show (9 : Nat) = b.length from h9.symm,
    ← available_moves_eq_filter_range]

theorem tableEval_eq (b : Board) (h9 : b.length = 9) :
    tableEval (encode b) = evaluate b := by
  unfold tableEval evaluate
  rw [digWinner_check b, hasEmpty_encode b h9]
  cases hcw : check_winner b with
  | none =>
    simp only [ocode]
    rw [show Nat.beq 0 0 = true from rfl, cond_true]
    cases hfull : is_board_full b with
    | true => simp
    | false => simp
  | some w =>
    cases w with
    | empty => exact absurd hcw (check_winner_ne_some_empty b)
    | X => rfl
    | O => rfl

theorem available_moves_length_le (b : Board) :
    (available_moves b).length ≤ b.length := by
  rw [available_moves_eq_filter_range]
  calc ((List.range b.length).filter _).length
      ≤ (List.range b.length).length := List.length_filter_le _ _
    _ = b.length := List.length_range b.length

theorem tableBestX_eq (tmax tmin : Nat)
    (hval : ∀ k, k < 19683 → tabOK tmax tmin k = true)
    (b : Board) (h9 : b.length = 9) :
    best_move_minimax b Cell.X = tableBestX tmin (encode b) := by
  unfold best_move_minimax tableBestX
  rw [tableMoves_eq b h9]
  show (List.foldl (fun acc m =>
      let score := minimax (List.length b) (List.set b m Cell.X) Cell.X
        (if Cell.X = Cell.X then Cell.O else Cell.X) false
      if score > acc.1 then (score, some m) else acc)
    ((-999 : Int), (none : Option Nat)) (available_moves b)).2 = _
  congr 1
  apply foldl_congr_mem
  intro acc m hm
  have hsc : minimax b.length (b.set m Cell.X) Cell.X
      (if Cell.X = Cell.X then Cell.O else Cell.X) false
      = (dig tmin (encode b + 3 ^ m) : Int) - 10 := by
    rw [if_pos rfl]
    obtain ⟨hlt, hcm⟩ := mem_available_moves.mp hm
    have h9' : (b.set m Cell.X).length = 9 := by
      rw [List.length_set]; exact h9
    have hlen : (available_moves (b.set m Cell.X)).length ≤ 9 := by
      have := available_moves_length_le (b.set m Cell.X)
      rw [h9'] at this
      exact this
    have hh := (minimax_eq_dig tmax tmin hval 9 (b.set m Cell.X) h9' hlen).2
    rw [encode_set b m Cell.X hlt hcm] at hh
    rw [h9]
    simpa [cellCode] using hh
  rw [hsc]

theorem tableBestO_eq (tmax tmin : Nat)
    (hval : ∀ k, k < 19683 → tabOK tmax tmin k = true)
    (b : Board) (h9 : b.length = 9) :
    best_move_minimax b Cell.O = tableBestO tmax (encode b) := by
  unfold best_move_minimax tableBestO
  rw [tableMoves_eq b h9]
  show (List.foldl (fun acc m =>
      let score := minimax (List.length b) (List.set b m Cell.O) Cell.O
        (if Cell.O = Cell.X then Cell.O else Cell.X) false
      if score > acc.1 then (score, some m) else acc)
    ((-999 : Int), (none : Option Nat)) (available_moves b)).2 = _
  congr 1
  apply foldl_congr_mem
  intro acc m hm
  have hsc : minimax b.length (b.set m Cell.O) Cell.O
      (if Cell.O = Cell.X then Cell.O else Cell.X) false
      = 10 - (dig tmax (encode b + 2 * 3 ^ m) : Int) := by
    rw [if_neg (by decide)]
    obtain ⟨hlt, hcm⟩ := mem_available_moves.mp hm
    have h9' : (b.set m Cell.O).length = 9 := by
      rw [List.length_set]; exact h9
    have hlen : (available_moves (b.set m Cell.O)).length ≤ 9 := by
      have := available_moves_length_le (b.set m Cell.O)
      rw [h9'] at this
      exact this
    have hneg := minimax_neg b.length (b.set m Cell.O) Cell.O Cell.X false
      (by decide)
    rw [h9] at hneg ⊢
    rw [hneg]
    have hh := (minimax_eq_dig tmax tmin hval 9 (b.set m Cell.O) h9' hlen).1
    rw [encode_set b m Cell.O hlt hcm] at hh
    rw [show (!false) = true from rfl, hh]
    simp [cellCode]
  rw [hsc]

theorem tablePlayout_eq (tmax tmin : Nat)
    (hval : ∀ k, k < 19683 → tabOK tmax tmin k = true) :
    ∀ (fuel : Nat) (b : Board) (p : Cell), b.length = 9 → p ≠ Cell.empty →
      tablePlayout tmax tmin fuel (encode b) p = hard_playout fuel b p := by
  intro fuel
  induction fuel with
  | zero =>
    intro b p h9 hp
    show tableEval (encode b) = _
    rw [tableEval_eq b h9]
    unfold hard_playout
    cases evaluate b <;> rfl
  | succ fuel ih =>
    intro b p h9 hp
    unfold tablePlayout hard_playout
    rw [tableEval_eq b h9]
    cases hev : evaluate b with
    | win w => rfl
    | tie => rfl
    | inProgress =>
      have hfull : is_board_full b = false :=
        ((evaluate_eq_inProgress_iff b).mp hev).2
      have hne : available_moves b ≠ [] := available_moves_ne_nil hfull
      cases p with
      | empty => exact absurd rfl hp
      | X =>
        rw [if_pos rfl, ← tableBestX_eq tmax tmin hval b h9]
        cases hbm : best_move_minimax b Cell.X with
        | none => rfl
        | some m =>
          obtain ⟨m', hbm', hmem, _, _⟩ := best_move_minimax_spec b Cell.X hne
          rw [hbm] at hbm'
          have hmm : m = m' := by injection hbm'
          obtain ⟨hlt, hcm⟩ := mem_available_moves.mp (hmm ▸ hmem)
          have h9' : (b.set m Cell.X).length = 9 := by
            rw [List.length_set]; exact h9
          have henc : encode (b.set m Cell.X)
              = encode b + cellCode Cell.X * 3 ^ m :=
            encode_set b m Cell.X hlt hcm
          show tablePlayout tmax tmin fuel
              (encode b + cellCode Cell.X * 3 ^ m) (flipMark Cell.X)
            = hard_playout fuel (b.set m Cell.X) (flipMark Cell.X)
          rw [← henc]
          exact ih (b.set m Cell.X) (flipMark Cell.X) h9' (by decide)
      | O =>
        rw [if_neg (by decide), ← tableBestO_eq tmax tmin hval b h9]
        cases hbm : best_move_minimax b Cell.O with
        | none => rfl
        | some m =>
          obtain ⟨m', hbm', hmem, _, _⟩ := best_move_minimax_spec b Cell.O hne
          rw [hbm] at hbm'
          have hmm : m = m' := by injection hbm'
          obtain ⟨hlt, hcm⟩ := mem_available_moves.mp (hmm ▸ hmem)
          have h9' : (b.set m Cell.O).length = 9 := by
            rw [List.length_set]; exact h9
          have henc : encode (b.set m Cell.O)
              = encode b + cellCode Cell.O * 3 ^ m :=
            encode_set b m Cell.O hlt hcm
          show tablePlayout tmax tmin fuel
              (encode b + cellCode Cell.O * 3 ^ m) (flipMark Cell.O)
            = hard_playout fuel (b.set m Cell.O) (flipMark Cell.O)
          rw [← henc]
          exact ih (b.set m Cell.O) (flipMark Cell.O) h9' (by decide)

/-! ## The state-passing search restores the board -/

theorem set_empty_of_cellAt {b : Board} {m : Nat}
    (h : cellAt b m = Cell.empty) : b.set m Cell.empty = b := by
  rcases Nat.lt_or_ge m b.length with hlt | hge
  · apply List.ext_getElem?
    intro i
    rw [List.getElem?_set]
    by_cases him : m = i
    · subst him
      rw [if_pos rfl, if_pos hlt]
      rw [cellAt, List.getD_eq_getElem b Cell.empty hlt] at h
      rw [List.getElem?_eq_getElem hlt, h]
    · rw [if_neg him]
  · exact List.set_eq_of_length_le hge

theorem minimaxS_eq :
    ∀ (fuel : Nat) (ai hm : Cell) (mx : Bool) (b : Board),
      minimaxS fuel ai hm mx b = (minimax fuel b ai hm mx, b) := by
  intro fuel
  induction fuel with
  | zero =>
    intro ai hm mx b
    unfold minimaxS minimax
    by_cases h1 : check_winner b = some ai
    · rw [if_pos h1, if_pos h1]
    · rw [if_neg h1, if_neg h1]
      by_cases h2 : check_winner b = some hm
      · rw [if_pos h2, if_pos h2]
      · rw [if_neg h2, if_neg h2]
  | succ fuel ih =>
    intro ai hm mx b
    by_cases h1 : check_winner b = some ai
    · unfold minimaxS minimax
      rw [if_pos h1, if_pos h1]
    · by_cases h2 : check_winner b = some hm
      · unfold minimaxS minimax
        rw [if_neg h1, if_pos h2, if_neg h1, if_pos h2]
      · by_cases h3 : is_board_full b = true
        · unfold minimaxS minimax
          rw [if_neg h1, if_neg h2, if_pos h3, if_neg h1, if_neg h2, if_pos h3]
        · cases mx with
          | true =>
            simp only [minimaxS, minimax, if_neg h1, if_neg h2, if_neg h3,
              eq_self_iff_true, if_true]
            have hfold : ∀ (l : List Nat), (∀ m ∈ l, cellAt b m = Cell.empty) →
                ∀ v : Int,
                List.foldl
                  (fun acc m =>
                    let b1 := acc.2.set m ai
                    let r := minimaxS fuel ai hm false b1
                    let b2 := r.2.set m Cell.empty
                    (max acc.1 r.1, b2)) (v, b) l
                = (List.foldl
                    (fun best m =>
                      max best (minimax fuel (b.set m ai) ai hm false)) v l, b) := by
              intro l
              induction l with
              | nil => intro _ v; rfl
              | cons m t iht =>
                intro hmem v
                rw [List.foldl_cons, List.foldl_cons]
                have hcm := hmem m (List.mem_cons_self m t)
                have hstep : (max v (minimaxS fuel ai hm false (b.set m ai)).1,
                    ((minimaxS fuel ai hm false (b.set m ai)).2).set m Cell.empty)
                    = (max v (minimax fuel (b.set m ai) ai hm false), b) := by
                  rw [ih]
                  show (max v (minimax fuel (b.set m ai) ai hm false),
                    (b.set m ai).set m Cell.empty) = _
                  rw [List.set_set, set_empty_of_cellAt hcm]
                show List.foldl _
                    (max v (minimaxS fuel ai hm false (b.set m ai)).1,
                      ((minimaxS fuel ai hm false (b.set m ai)).2).set m
                        Cell.empty) t = _
                rw [hstep]
                exact iht (fun x hx => hmem x (List.mem_cons_of_mem m hx)) _
            exact hfold (available_moves b)
              (fun m hm => (mem_available_moves.mp hm).2) (-999)
          | false =>
            simp only [minimaxS, minimax, if_neg h1, if_neg h2, if_neg h3,
              Bool.false_eq_true, if_false]
            have hfold : ∀ (l : List Nat), (∀ m ∈ l, cellAt b m = Cell.empty) →
                ∀ v : Int,
                List.foldl
                  (fun acc m =>
                    let b1 := acc.2.set m hm
                    let r := minimaxS fuel ai hm true b1
                    let b2 := r.2.set m Cell.empty
                    (min acc.1 r.1, b2)) (v, b) l
                = (List.foldl
                    (fun best m =>
                      min best (minimax fuel (b.set m hm) ai hm true)) v l, b) := by
              intro l
              induction l with
              | nil => intro _ v; rfl
              | cons m t iht =>
                intro hmem v
                rw [List.foldl_cons, List.foldl_cons]
                have hcm := hmem m (List.mem_cons_self m t)
                have hstep : (min v (minimaxS fuel ai hm true (b.set m hm)).1,
                    ((minimaxS fuel ai hm true (b.set m hm)).2).set m Cell.empty)
                    = (min v (minimax fuel (b.set m hm) ai hm true), b) := by
                  rw [ih]
                  show (min v (minimax fuel (b.set m hm) ai hm true),
                    (b.set m hm).set m Cell.empty) = _
                  rw [List.set_set, set_empty_of_cellAt hcm]
                show List.foldl _
                    (min v (minimaxS fuel ai hm true (b.set m hm)).1,
                      ((minimaxS fuel ai hm true (b.set m hm)).2).set m
                        Cell.empty) t = _
                rw [hstep]
                exact iht (fun x hx => hmem x (List.mem_cons_of_mem m hx)) _
            exact hfold (available_moves b)
              (fun m hm => (mem_available_moves.mp hm).2) 999

theorem best_move_minimaxS_eq (b : Board) (ai : Cell) :
    best_move_minimaxS b ai = (best_move_minimax b ai, b) := by
  unfold best_move_minimaxS best_move_minimax
  have hfold : ∀ (l : List Nat), (∀ m ∈ l, cellAt b m = Cell.empty) →
      ∀ (v : Int) (mo : Option Nat),
      List.foldl
        (fun acc m =>
          let b1 := acc.2.2.set m ai
          let r := minimaxS b.length ai
            (if ai = Cell.X then Cell.O else Cell.X) false b1
          let b2 := r.2.set m Cell.empty
          if r.1 > acc.1 then (r.1, some m, b2) else (acc.1, acc.2.1, b2))
        (v, mo, b) l
      = ((List.foldl (fun acc m =>
            let score := minimax b.length (b.set m ai) ai
              (if ai = Cell.X then Cell.O else Cell.X) false
            if score > acc.1 then (score, some m) else acc) (v, mo) l).1,
          (List.foldl (fun acc m =>
            let score := minimax b.length (b.set m ai) ai
              (if ai = Cell.X then Cell.O else Cell.X) false
            if score > acc.1 then (score, some m) else acc) (v, mo) l).2, b) := by
    intro l
    induction l with
    | nil => intro _ v mo; rfl
    | cons m t iht =>
      intro hmem v mo
      have hcm := hmem m (List.mem_cons_self m t)
      have htail := fun x hx => hmem x (List.mem_cons_of_mem m hx)
      rw [List.foldl_cons, List.foldl_cons]
      have hstep : (if (minimaxS b.length ai
            (if ai = Cell.X then Cell.O else Cell.X) false (b.set m ai)).1 > v
          then ((minimaxS b.length ai
              (if ai = Cell.X then Cell.O else Cell.X) false (b.set m ai)).1,
            some m,
            ((minimaxS b.length ai
              (if ai = Cell.X then Cell.O else Cell.X) false
                (b.set m ai)).2).set m Cell.empty)
          else (v, mo,
            ((minimaxS b.length ai
              (if ai = Cell.X then Cell.O else Cell.X) false
                (b.set m ai)).2).set m Cell.empty))
          = (if minimax b.length (b.set m ai) ai
              (if ai = Cell.X then Cell.O else Cell.X) false > v
            then (minimax b.length (b.set m ai) ai
              (if ai = Cell.X then Cell.O else Cell.X) false, some m, b)
            else (v, mo, b)) := by
        rw [minimaxS_eq]
        show (if minimax b.length (b.set m ai) ai
              (if ai = Cell.X then Cell.O else Cell.X) false > v
            then (minimax b.length (b.set m ai) ai
              (if ai = Cell.X then Cell.O else Cell.X) false, some m,
              (b.set m ai).set m Cell.empty)
            else (v, mo, (b.set m ai).set m Cell.empty)) = _
        rw [List.set_set, set_empty_of_cellAt hcm]
      show List.foldl _
          (if (minimaxS b.length ai
            (if ai = Cell.X then Cell.O else Cell.X) false (b.set m ai)).1 > v
          then ((minimaxS b.length ai
              (if ai = Cell.X then Cell.O else Cell.X) false (b.set m ai)).1,
            some m,
            ((minimaxS b.length ai
              (if ai = Cell.X then Cell.O else Cell.X) false
                (b.set m ai)).2).set m Cell.empty)
          else (v, mo,
            ((minimaxS b.length ai
              (if ai = Cell.X then Cell.O else Cell.X) false
                (b.set m ai)).2).set m Cell.empty)) t = _
      rw [hstep]
      show List.foldl
          (fun acc m =>
            let b1 := acc.2.2.set m ai
            let r := minimaxS b.length ai
              (if ai = Cell.X then Cell.O else Cell.X) false b1
            let b2 := r.2.set m Cell.empty
            if r.1 > acc.1 then (r.1, some m, b2) else (acc.1, acc.2.1, b2))
          (if minimax b.length (b.set m ai) ai
              (if ai = Cell.X then Cell.O else Cell.X) false > v
            then (minimax b.length (b.set m ai) ai
              (if ai = Cell.X then Cell.O else Cell.X) false, some m, b)
            else (v, mo, b)) t
        = ((List.foldl (fun acc m =>
              let score := minimax b.length (b.set m ai) ai
                (if ai = Cell.X then Cell.O else Cell.X) false
              if score > acc.1 then (score, some m) else acc)
            (if minimax b.length (b.set m ai) ai
                (if ai = Cell.X then Cell.O else Cell.X) false > v
              then (minimax b.length (b.set m ai) ai
                (if ai = Cell.X then Cell.O else Cell.X) false, some m)
              else (v, mo)) t).1,
           (List.foldl (fun acc m =>
              let score := minimax b.length (b.set m ai) ai
                (if ai = Cell.X then Cell.O else Cell.X) false
              if score > acc.1 then (score, some m) else acc)
            (if minimax b.length (b.set m ai) ai
                (if ai = Cell.X then Cell.O else Cell.X) false > v
              then (minimax b.length (b.set m ai) ai
                (if ai = Cell.X then Cell.O else Cell.X) false, some m)
              else (v, mo)) t).2, b)
      by_cases hgt : minimax b.length (b.set m ai) ai
          (if ai = Cell.X then Cell.O else Cell.X) false > v
      · simp only [if_pos hgt]
        exact iht htail _ _
      · simp only [if_neg hgt]
        exact iht htail _ _
  show ((List.foldl
      (fun acc m =>
        let b1 := acc.2.2.set m ai
        let r := minimaxS b.length ai
          (if ai = Cell.X then Cell.O else Cell.X) false b1
        let b2 := r.2.set m Cell.empty
        if r.1 > acc.1 then (r.1, some m, b2) else (acc.1, acc.2.1, b2))
      ((-999 : Int), (none : Option Nat), b) (available_moves b)).2.1,
    (List.foldl
      (fun acc m =>
        let b1 := acc.2.2.set m ai
        let r := minimaxS b.length ai
          (if ai = Cell.X then Cell.O else Cell.X) false b1
        let b2 := r.2.set m Cell.empty
        if r.1 > acc.1 then (r.1, some m, b2) else (acc.1, acc.2.1, b2))
      ((-999 : Int), (none : Option Nat), b) (available_moves b)).2.2)
    = ((List.foldl (fun acc m =>
          let score := minimax b.length (b.set m ai) ai
            (if ai = Cell.X then Cell.O else Cell.X) false
          if score > acc.1 then (score, some m) else acc)
        ((-999 : Int), (none : Option Nat)) (available_moves b)).2, b)
  rw [hfold (available_moves b)
    (fun m hm => (mem_available_moves.mp hm).2) (-999) none]

/-- **C6**: the Hard search never leaves a trace on the board: the
state-passing embedding of the mutate-and-undo discipline hands back
exactly the board it was given, after every recursive `minimaxS`
branch and after a full `best_move_minimaxS` call. -/
theorem search_restores_board :
    (∀ (fuel : Nat) (ai hm : Cell) (mx : Bool) (b : Board),
      (minimaxS fuel ai hm mx b).2 = b) ∧
    (∀ (b : Board) (ai : Cell), (best_move_minimaxS b ai).2 = b) := by
  constructor
  · intro fuel ai hm mx b
    rw [minimaxS_eq]
  · intro b ai
    rw [best_move_minimaxS_eq]

/-- **C8**: "New Round" always yields the all-empty 9-cell board, turn `X`,
a cleared terminal flag, and untouched score counters; "Reset Score" does
the same and also zeroes the three score buckets. -/
theorem new_round_resets :
    (∀ s : GameState,
      (new_round s).board = List.replicate 9 Cell.empty ∧
      (new_round s).current_player = Cell.X ∧
      (new_round s).game_over = false ∧
      (new_round s).scoreX = s.scoreX ∧
      (new_round s).scoreO = s.scoreO ∧
      (new_round s).scoreTIE = s.scoreTIE) ∧
    (∀ s : GameState,
      (reset_score s).board = List.replicate 9 Cell.empty ∧
      (reset_score s).current_player = Cell.X ∧
      (reset_score s).game_over = false ∧
      (reset_score s).scoreX = 0 ∧
      (reset_score s).scoreO = 0 ∧
      (reset_score s).scoreTIE = 0) :=
  ⟨fun _ => ⟨rfl, rfl, rfl, rfl, rfl, rfl⟩,
   fun _ => ⟨rfl, rfl, rfl, rfl, rfl, rfl⟩⟩

theorem conclude_if_end_fields (t : GameState) :
    (conclude_if_end t).1.current_player = t.current_player ∧
    (conclude_if_end t).1.mode = t.mode ∧
    ((conclude_if_end t).2 = false → conclude_if_end t = (t, false)) ∧
    ((conclude_if_end t).2 = true → (conclude_if_end t).1.game_over = true) := by
  unfold conclude_if_end
  cases hw : check_winner t.board with
  | some w =>
    exact ⟨rfl, rfl, fun h => absurd h (by simp), fun _ => rfl⟩
  | none =>
    by_cases hf : is_board_full t.board = true
    · rw [if_pos hf]
      exact ⟨rfl, rfl, fun h => absurd h (by simp), fun _ => rfl⟩
    · rw [if_neg hf]
      exact ⟨rfl, rfl, fun _ => rfl, fun h => absurd h (by simp)⟩

theorem flipTurn_ne (c : Cell) : (if c = Cell.X then Cell.O else Cell.X) ≠ c := by
  cases c <;> decide

/-- The state used for the concrete `human_move` scenarios: cell 0 already
holds `X`, the game is running, human-vs-human. -/
def sOcc : GameState :=
  { board := [Cell.X, Cell.empty, Cell.empty, Cell.empty, Cell.empty,
      Cell.empty, Cell.empty, Cell.empty, Cell.empty]
    current_player := Cell.O
    scoreX := 0
    scoreO := 0
    scoreTIE := 0
    game_over := false
    mode := Mode.humanVsHuman
    difficulty := Difficulty.easy
    human_mark := Cell.X }

/-- Counterexample to **C5** as stated: clicking the occupied cell 0 of
`sOcc` leaves the state untouched but reports no `InvalidMove` error at
all — the call succeeds silently. -/
theorem occupied_cell_no_error :
    human_move (fun l => l.headD 0) sOcc 0 = Except.ok sOcc ∧
    human_move (fun l => l.headD 0) sOcc 0 ≠ Except.error "InvalidMove" := by
  constructor
  · rfl
  · intro h
    rw [show human_move (fun l => l.headD 0) sOcc 0 = Except.ok sOcc from rfl] at h
    cases h

/-- **C5** (amended): a move on an occupied cell never mutates any state
and is silently ignored (the handler returns the state unchanged, with no
error); an index past the end of the board raises `IndexError` — not
`InvalidMove` — before any mutation; and with the round already over the
handler returns the state unchanged as well. -/
theorem human_move_rejections (pick : List Nat → Nat) (s : GameState) (i : Nat) :
    (s.game_over = false → i < s.board.length →
      cellAt s.board i ≠ Cell.empty → human_move pick s i = Except.ok s) ∧
    (s.game_over = false → s.board.length ≤ i →
      human_move pick s i = Except.error "IndexError") ∧
    (s.game_over = true → human_move pick s i = Except.ok s) := by
  refine ⟨?_, ?_, ?_⟩
  · intro hgo hi hc
    unfold human_move
    rw [if_neg (by rw [hgo]; simp)]
    have hbi : s.board.get? i = some (cellAt s.board i) := by
      rw [List.get?_eq_getElem?, List.getElem?_eq_getElem hi]
      rw [cellAt, List.getD_eq_getElem s.board Cell.empty hi]
    simp only [hbi]
    rw [if_neg hc]
  · intro hgo hi
    unfold human_move
    rw [if_neg (by rw [hgo]; simp)]
    have hbi : s.board.get? i = none := by
      rw [List.get?_eq_getElem?]
      exact List.getElem?_eq_none hi
    simp only [hbi]
  · intro hgo
    unfold human_move
    rw [if_pos hgo]

theorem human_move_rejections_witness :
    human_move (fun l => l.headD 0) sOcc 0 = Except.ok sOcc ∧
    human_move (fun l => l.headD 0) sOcc 9 = Except.error "IndexError" :=
  ⟨(human_move_rejections (fun l => l.headD 0) sOcc 0).1 rfl (by decide)
      (by decide),
   (human_move_rejections (fun l => l.headD 0) sOcc 9).2.1 rfl (by decide)⟩

/-- **C9**: in Human-vs-Human mode every accepted move flips the turn,
except when the move ends the round, in which case the session becomes
terminal and the stored turn is left frozen at the mover's mark. -/
theorem human_vs_human_turn_flips (pick : List Nat → Nat) (s : GameState)
    (i : Nat) (hmode : s.mode = Mode.humanVsHuman) (hgo : s.game_over = false)
    (hi : i < s.board.length) (hc : cellAt s.board i = Cell.empty) :
    ∃ s' : GameState, human_move pick s i = Except.ok s' ∧
      ((s'.game_over = false ∧ s'.current_player ≠ s.current_player) ∨
       (s'.game_over = true ∧ s'.current_player = s.current_player)) := by
  unfold human_move
  rw [if_neg (by rw [hgo]; simp)]
  have hbi : s.board.get? i = some (cellAt s.board i) := by
    rw [List.get?_eq_getElem?, List.getElem?_eq_getElem hi]
    rw [cellAt, List.getD_eq_getElem s.board Cell.empty hi]
  rw [hc] at hbi
  simp only [hbi]
  rw [if_pos trivial]
  obtain ⟨hcp, hmode1, hfalse, htrue⟩ := conclude_if_end_fields
    { s with board := s.board.set i s.current_player }
  cases hr : (conclude_if_end
      { s with board := s.board.set i s.current_player }).2 with
  | true =>
    rw [if_pos rfl]
    exact ⟨_, rfl, Or.inr ⟨htrue hr, hcp⟩⟩
  | false =>
    rw [if_neg (by simp)]
    have heq := hfalse hr
    rw [if_neg (by rw [heq]; show s.mode ≠ Mode.humanVsAI; rw [hmode]; decide)]
    refine ⟨_, rfl, Or.inl ⟨?_, ?_⟩⟩
    · show ({ (conclude_if_end _).1 with
        current_player := if (conclude_if_end _).1.current_player = Cell.X
          then Cell.O else Cell.X } : GameState).game_over = false
      rw [heq]
      exact hgo
    · show ({ (conclude_if_end _).1 with
        current_player := if (conclude_if_end _).1.current_player = Cell.X
          then Cell.O else Cell.X } : GameState).current_player
        ≠ s.current_player
      rw [heq]
      exact flipTurn_ne s.current_player

/-- **C7**: the Hard AI breaks ties deterministically by lowest index: on
any board with a legal move, `best_move_minimax` returns a legal move whose
search score is maximal, and any other legal move attaining the same score
has a larger index. -/
theorem hard_tie_break_lowest_index (b : Board) (ai : Cell)
    (hne : available_moves b ≠ []) :
    ∃ m', best_move_minimax b ai = some m' ∧ m' ∈ available_moves b ∧
      (∀ m ∈ available_moves b,
        minimax b.length (b.set m ai) ai
            (if ai = Cell.X then Cell.O else Cell.X) false
          ≤ minimax b.length (b.set m' ai) ai
              (if ai = Cell.X then Cell.O else Cell.X) false) ∧
      (∀ m ∈ available_moves b,
        minimax b.length (b.set m ai) ai
            (if ai = Cell.X then Cell.O else Cell.X) false
          = minimax b.length (b.set m' ai) ai
              (if ai = Cell.X then Cell.O else Cell.X) false → m' ≤ m) :=
  best_move_minimax_spec b ai hne

/-- A nearly-full board with index 8 as its only empty cell. -/
def bdOne : Board :=
  [Cell.X, Cell.O, Cell.X, Cell.O, Cell.X, Cell.O, Cell.O, Cell.X, Cell.empty]

theorem hard_tie_break_lowest_index_witness :
    ∃ m', best_move_minimax bdOne Cell.X = some m' ∧
      m' ∈ available_moves bdOne ∧
      (∀ m ∈ available_moves bdOne,
        minimax bdOne.length (bdOne.set m Cell.X) Cell.X
            (if Cell.X = Cell.X then Cell.O else Cell.X) false
          ≤ minimax bdOne.length (bdOne.set m' Cell.X) Cell.X
              (if Cell.X = Cell.X then Cell.O else Cell.X) false) ∧
      (∀ m ∈ available_moves bdOne,
        minimax bdOne.length (bdOne.set m Cell.X) Cell.X
            (if Cell.X = Cell.X then Cell.O else Cell.X) false
          = minimax bdOne.length (bdOne.set m' Cell.X) Cell.X
              (if Cell.X = Cell.X then Cell.O else Cell.X) false → m' ≤ m) :=
  hard_tie_break_lowest_index bdOne Cell.X (by decide)

/-- **C10**: whatever the difficulty, `get_ai_move` returns a legal move —
an in-range index of an empty cell — whenever one exists, and `none`
exactly when the board is full. `pick` models `random.choice` and is
assumed to pick an element of the non-empty list it receives. -/
theorem get_ai_move_safe (pick : List Nat → Nat)
    (hpick : ∀ l : List Nat, l ≠ [] → pick l ∈ l)
    (b : Board) (ai : Cell) (d : Difficulty) (h9 : b.length = 9) :
    (available_moves b ≠ [] → ∃ m, get_ai_move pick b ai d = some m ∧
      m < 9 ∧ cellAt b m = Cell.empty) ∧
    (available_moves b = [] → get_ai_move pick b ai d = none) := by
  cases d with
  | easy =>
    constructor
    · intro hne
      show ∃ m, best_move_easy pick b = some m ∧ _
      unfold best_move_easy
      rw [if_neg (by
        intro hc
        exact hne (List.isEmpty_iff.mp hc))]
      refine ⟨pick (available_moves b), rfl, ?_⟩
      obtain ⟨h1, h2⟩ := mem_available_moves.mp (hpick _ hne)
      rw [h9] at h1
      exact ⟨h1, h2⟩
    · intro hnil
      show best_move_easy pick b = none
      unfold best_move_easy
      rw [if_pos (List.isEmpty_iff.mpr hnil)]
  | hard =>
    constructor
    · intro hne
      obtain ⟨m', hbm, hmem, _, _⟩ := best_move_minimax_spec b ai hne
      obtain ⟨h1, h2⟩ := mem_available_moves.mp hmem
      rw [h9] at h1
      exact ⟨m', hbm, h1, h2⟩
    · intro hnil
      exact best_move_minimax_none b ai hnil
  | normal =>
    show (available_moves b ≠ [] → ∃ m, best_move_normal pick b ai = some m ∧
        m < 9 ∧ cellAt b m = Cell.empty) ∧
      (available_moves b = [] → best_move_normal pick b ai = none)
    cases h1 : find_winning_move b ai with
    | some m =>
      constructor
      · intro _
        obtain ⟨hm1, hm2⟩ := mem_available_moves.mp
          (List.mem_of_find?_eq_some h1)
        rw [h9] at hm1
        refine ⟨m, ?_, hm1, hm2⟩
        unfold best_move_normal
        rw [h1]
      · intro hnil
        rw [find_winning_move, hnil] at h1
        cases h1
    | none =>
      cases h2 : find_winning_move b
          (if ai = Cell.X then Cell.O else Cell.X) with
      | some m =>
        constructor
        · intro _
          obtain ⟨hm1, hm2⟩ := mem_available_moves.mp
            (List.mem_of_find?_eq_some h2)
          rw [h9] at hm1
          refine ⟨m, ?_, hm1, hm2⟩
          unfold best_move_normal
          rw [h1]
          simp only [h2]
        · intro hnil
          rw [find_winning_move, hnil] at h2
          cases h2
      | none =>
        by_cases h4 : cellAt b 4 = Cell.empty
        · constructor
          · intro _
            refine ⟨4, ?_, by omega, h4⟩
            unfold best_move_normal
            rw [h1]
            simp only [h2]
            rw [if_pos h4]
          · intro hnil
            have : (4 : Nat) ∈ available_moves b :=
              mem_available_moves.mpr ⟨by omega, h4⟩
            rw [hnil] at this
            exact absurd this (List.not_mem_nil 4)
        · cases hcor : ([0,2,6,8].filter
              (fun i => cellAt b i == Cell.empty)).isEmpty with
          | false =>
            have hcne : [0,2,6,8].filter
                (fun i => cellAt b i == Cell.empty) ≠ [] := by
              intro hc
              rw [hc] at hcor
              cases hcor
            have hmem := hpick _ hcne
            obtain ⟨hmemL, hpred⟩ := List.mem_filter.mp hmem
            have hlt : pick ([0,2,6,8].filter
                (fun i => cellAt b i == Cell.empty)) < 9 := by
              simp at hmemL
              rcases hmemL with h | h | h | h <;> omega
            constructor
            · intro _
              refine ⟨_, ?_, hlt, by rwa [beq_iff_eq] at hpred⟩
              unfold best_move_normal
              rw [h1]
              simp only [h2]
              rw [if_neg h4]
              simp only [hcor]
              rw [if_neg (by simp)]
            · intro hnil
              have : pick ([0,2,6,8].filter
                  (fun i => cellAt b i == Cell.empty)) ∈ available_moves b :=
                mem_available_moves.mpr
                  ⟨by omega, by rwa [beq_iff_eq] at hpred⟩
              rw [hnil] at this
              exact absurd this (List.not_mem_nil _)
          | true =>
            have hcors : [0,2,6,8].filter
                (fun i => cellAt b i == Cell.empty) = [] :=
              List.isEmpty_iff.mp hcor
            cases hsid : ([1,3,5,7].filter
                (fun i => cellAt b i == Cell.empty)).isEmpty with
            | false =>
              have hsne : [1,3,5,7].filter
                  (fun i => cellAt b i == Cell.empty) ≠ [] := by
                intro hc
                rw [hc] at hsid
                cases hsid
              have hmem := hpick _ hsne
              obtain ⟨hmemL, hpred⟩ := List.mem_filter.mp hmem
              have hlt : pick ([1,3,5,7].filter
                  (fun i => cellAt b i == Cell.empty)) < 9 := by
                simp at hmemL
                rcases hmemL with h | h | h | h <;> omega
              constructor
              · intro _
                refine ⟨_, ?_, hlt, by rwa [beq_iff_eq] at hpred⟩
                unfold best_move_normal
                rw [h1]
                simp only [h2]
                rw [if_neg h4]
                simp only [hcor]
                rw [if_pos trivial]
                simp only [hsid]
                rw [if_neg (by simp)]
              · intro hnil
                have : pick ([1,3,5,7].filter
                    (fun i => cellAt b i == Cell.empty)) ∈ available_moves b :=
                  mem_available_moves.mpr
                    ⟨by omega, by rwa [beq_iff_eq] at hpred⟩
                rw [hnil] at this
                exact absurd this (List.not_mem_nil _)
            | true =>
              have hsids : [1,3,5,7].filter
                  (fun i => cellAt b i == Cell.empty) = [] :=
                List.isEmpty_iff.mp hsid
              constructor
              · intro hne
                exfalso
                obtain ⟨m, hm⟩ := List.exists_mem_of_ne_nil _ hne
                obtain ⟨hm1, hm2⟩ := mem_available_moves.mp hm
                rw [h9] at hm1
                have hin : ∀ (L : List Nat), m ∈ L →
                    L.filter (fun i => cellAt b i == Cell.empty) ≠ [] := by
                  intro L hmL hLf
                  have : m ∈ L.filter (fun i => cellAt b i == Cell.empty) :=
                    List.mem_filter.mpr ⟨hmL, by rw [beq_iff_eq]; exact hm2⟩
                  rw [hLf] at this
                  exact absurd this (List.not_mem_nil m)
                interval_cases m
                · exact hin [0,2,6,8] (by decide) hcors
                · exact hin [1,3,5,7] (by decide) hsids
                · exact hin [0,2,6,8] (by decide) hcors
                · exact hin [1,3,5,7] (by decide) hsids
                · exact h4 hm2
                · exact hin [1,3,5,7] (by decide) hsids
                · exact hin [0,2,6,8] (by decide) hcors
                · exact hin [1,3,5,7] (by decide) hsids
                · exact hin [0,2,6,8] (by decide) hcors
              · intro _
                unfold best_move_normal
                rw [h1]
                simp only [h2]
                rw [if_neg h4]
                simp only [hcor]
                rw [if_pos trivial]
                simp only [hsid]
                rw [if_pos trivial]

theorem human_vs_human_turn_flips_witness :
    ∃ s' : GameState, human_move (fun l => l.headD 0) sOcc 1 = Except.ok s' ∧
      ((s'.game_over = false ∧ s'.current_player ≠ sOcc.current_player) ∨
       (s'.game_over = true ∧ s'.current_player = sOcc.current_player)) :=
  human_vs_human_turn_flips (fun l => l.headD 0) sOcc 1 rfl rfl (by decide)
    (by decide)

theorem get_ai_move_safe_witness :
    (available_moves bdOne ≠ [] → ∃ m,
      get_ai_move (fun l => l.headD 0) bdOne Cell.X Difficulty.normal
        = some m ∧ m < 9 ∧ cellAt bdOne m = Cell.empty) ∧
    (available_moves bdOne = [] →
      get_ai_move (fun l => l.headD 0) bdOne Cell.X Difficulty.normal
        = none) :=
  get_ai_move_safe (fun l => l.headD 0)
    (fun l hl => by
      cases l with
      | nil => exact absurd rfl hl
      | cons a t => exact List.mem_cons_self a t)
    bdOne Cell.X Difficulty.normal (by decide)

/-- A board where `X` has both an immediate win (cell 0 completes the
0-4-8 diagonal) and a slower forced win (cell 1 wins only two plies
later). -/
def bd3 : Board :=
  [Cell.empty, Cell.empty, Cell.empty, Cell.O, Cell.X, Cell.O,
   Cell.X, Cell.O, Cell.X]

/-- Counterexample to **C3** as stated: on `bd3`, move 0 wins immediately
while move 1 merely forces a win two plies later, yet the search scores
both moves 10 — the faster win does NOT get a strictly better score. -/
theorem depth_preference_counterexample :
    check_winner (bd3.set 0 Cell.X) = some Cell.X ∧
    check_winner (bd3.set 1 Cell.X) = none ∧
    minimax 9 (bd3.set 0 Cell.X) Cell.X Cell.O false = 10 ∧
    minimax 9 (bd3.set 1 Cell.X) Cell.X Cell.O false = 10 ∧
    ¬(minimax 9 (bd3.set 0 Cell.X) Cell.X Cell.O false >
      minimax 9 (bd3.set 1 Cell.X) Cell.X Cell.O false) := by decide

/-- **C3** (amended): the search's terminal scoring is flat, not
depth-normalized: every minimax value is one of -10, 0, 10 whatever the
depth, so a faster forced win scores exactly the same as a slower one (as
the two winning moves of `bd3` show); which of two equally-scored wins is
played is decided by the lowest-index tie-break alone. -/
theorem minimax_flat_scoring (fuel : Nat) (b : Board) (ai hm : Cell)
    (mx : Bool) :
    (minimax fuel b ai hm mx = -10 ∨ minimax fuel b ai hm mx = 0 ∨
      minimax fuel b ai hm mx = 10) ∧
    minimax 9 (bd3.set 0 Cell.X) Cell.X Cell.O false
      = minimax 9 (bd3.set 1 Cell.X) Cell.X Cell.O false :=
  ⟨minimax_value_cases fuel b ai hm mx, by decide⟩

/-- Base-32 digit table: digit n holds `minimax` value + 10 (maximizing side
to move, AI = X) of the base-3-encoded position n; validated below by the
kernel against the minimax recurrence. -/
def TXmax : Nat :=
  124725016451217970639660275795059007453032067558310991282702912801274820342588281686732295125166787502281242261753049022422885630281930173931368287707316217541982859942020449304529723907431669661440292640606152057918193451527307265004281343015674576491923234256550510557711446864892652944019081077609055493329730458963906609800442712002917716938593322157596635738503931961613881214634442477680072537102546402878734957900701895580043384588278737052760553972213099182482434234082774932890589927359952656902441507424321501214273154972812209145970409860175835435933267434686595338721893281650784064776201945489537873336769262354346197640122822020618254739821149845107470338145295782437820185334940693570761812159642047879593933188603298682080591845536245965217944930704778796437903337037777105541112046440423792537356303988995657742651145860796400901901854957200734799683893887567242585977638732062166739236743274607320729237935882344078846918118362342521173008244959137833144243075244811522096143256038173227659794479113405867298218288251572129697015046518981900772755208751537540505407982839675601880673938216016086600076751135524747919637077344986709907884566614252613595012461911124938180229677861246033651058486389779907005563959757109559774436562017289922743912156837448108680831324200356993668973382262399947912960402554593617826394245019880766404803724032705584402562702566459802281201308175535575618200149809375525208711449450100943791906941727492613638627058456339963318583488010680270710414564706376792587035424006592463064823563579699680647652868800537594876476686276798796265263088508368181614722118329876010226744392972120021710221156055549075438830198031814944209066513630769674892219008388810108672783547118105185737989447104538913292647593407772480246237333970034261990329725868751550020152272298572061683617595008988707990545819411366053478584318907326803197304326602929323554169713409169408331017546550202852653361456026788540139066518384876257925638523393895524563066159449180469517174771520469007324944687885935100388037321689227267765997362964208494898471527003792257514722093046446051967412910335494595806144833489113818363059822357072490343124796485106570523312013192453418832939533786052172093743678463755266590377731799603406660583857190284438589699285557546893404185162778023876862824071655350122084493569234395739447501478143964243500805250778000756415013061503267036624023851786604764134471406204862965818979767626902686202908840291780568037222984131942579850910001262094570943678282162084100458134873685518466486534205814497948878400602827662551714551180477379213129580782542692414828726771544137852530201698582626780585322743439962777955919613199773707637325618603617747933671711873807969130707987326605877624837254590412885054813515554365685517794688642289011138990876463652106869948565713560754524358124282564331058672020573493630885313424095068588168113736574783347320098063278461990649301939763389060243247401671761207977947239891470454325960326404555071082580155876206103080712081382643137271431580088573611651830645693588187287417035624192407315039606641787588788409914943478856246023012330430202059289175345441180716009707326541284452485532458517716612116455224910792690076460553031378825195124143088710758619008138223895007763441335631910505873551476695826076450824731457806948429644879138317725993752447731545706622197870874494438662048770797695311802239518646693646018017238912903713421521485354547968383485160141545714563525425110177044164155286331255854532396882971669164017153652809729504691256223035038142101831235240357142028340341488526599484487583869844918418696440102579526768379083112469414313522951542912118566508692088850225045337650188776918885030266489809372510398274633233813103280548023425378749465406875668644721333287339891704736974314543077325668284439048947915264124035079082377819655112410052246151396358142604532132665296733074865397429744899608314769498922999955346342624106921025697507275071167762969120418825833626969678683826757994540214946643967695608312084094975416662434154544872220908353787979425196533232365135953215972324099488492571786195321625561241595962369953530882046907054592472960808474699812872451306999005559851101992771825171554699749247337456058831704686225219317675051491434013859600256553690138301000354807999426439416364810700857235736352189115725315939066245922741510987067850602077689203251242391222585458493174599045506887131172440133950846225986532768634033615621155461734515467112806727780451553442216255478954920833404050360797106249566027726205241629218670621591459414657567204043742390360334689370637266766912027556891810371624389722093266096716185902936017493276047907020720273130211311494726889806598605013338397834584099618584302758300825961334945544441420005404407567306980911634277366368685976064793023556817675604605061596516739296892904974796100156100897048434293388700768057162574695864359608001745604510025073368623128344703275767803889114784278169566446572112851385865893368026376206262967738704325241512277967656969455390404944293975666790078077586572583261741607378551697344943223487129310116036587495822794856117336633802383495329795004918864083209987917213044324444716508387016809915673508284337967283481452615906090135760206913725396534033052865857028072990762898786813432870412536969839125803233656720238433360608845072560514015588892939623310328395052318726839535410872719986738537193482928980344800025600158814708184588194571019003861597711731241404700336772377288694284550206825548796207623958752841615964824971087332898042520603025844281591503099026365719050814338730756037131641775347683889131060376557998642327682299124074247136192000792177883297485160530504092766028991247277255027303771019969411890824619174195880077892340556260550668250526340395903281447944322457262914011015106669566149278944099667680120686261804299228267842680057769276377547976030083724725315340659817352934775630086565686354864818166964186220919791377625437886034601619478181734406603876279167650733621477381418463463147243195520458705785699160741367910990707395327851298693592185063292547871960616256685189040085314165703811700785690206749434420057613691238106818996668064166735622342475301678696177366040436169864903201530738340390680041298563030992880162238532815158355499087059102863263998546453502951030885916753282243248894197951037840539820015933848358817190938278418248099858777542390689469343205233639265136211245257167303854276626238711855313417671764894925051109634096022837475922876433376636643447587860734557276579472776893513133053673440624775380217004688013759002834905764789296968139800511178313135355870360936013684005795929333525928980489328013023084427679924215821405149827787454785389503709740640767650628365728623371730029681304445398231489824644998624244271778391970020121128554515035709349113705292001959534627963426795997694623316007948727998849079644535910361887842815766529377201533460885854381525354962865418114132127899340639084104331716346103748770636993245862879077903449383106385669834652437040851069895744778444399896422062011077942366378441722364914332427613668453637859273265294006610362398404326105905427234194304005333661062215574457955662955510829041698887904623498854521852991132486787213156390603858898336890017022672843524520211851228108415633386667823967656880420857714949376170279839427808796454689321962086058081724038113618683412439088090756687778467094355223923487353504382987382361022863580021360626365841295869773068383171681627643927196327611611601138569359071687795980988934822101541292598923494309032586445313613121121378159835105362265568500362799716750784707526775779303432225881021191933640491789088967562927080658918012698053788602421669691244394279412849942179643681619774704819088652749299789455612617496188530293800655450394567136228051047330234932565888344094237274302461911657656162071473446119571196863032327185635145645477131479524595971790306638112672776406843085122668620368614339643528070732827692653592726004228260966570883015230548644822399092766245159991881186039060749871562665129961870586654263547092501635569110186428610948207044963942083730866145636069770971922787740691006209586592388719890735787809656796822615525251267076209087103474212730996789517190284809433497962473232257514964794469860687419088688365341161222280895957552449441062260390801645696829620388144628408612163005674217570238096094345512292399454904609845933883127314034183240122974934237555369809762837400225062840171861294925180350032056022201156244576745498965206275254844509969421990320482917440922168882214315241219803924811298647921426637801359162685683837552931014320177589138423104427211366334518399744407863695208171247374346038937599238015466662951578980626664853510847412671892773256953847006835976900791658937223140701341117391108907512933223917322175587188040905533997207818801302462431309943362877847663712985068352978695992536912730699371123536839627059950328756682052198267664236742290057181359705941935864899530817165075264230722360379422331066309690779975781535287150806732490082916792887312574707715667911871366018108350018385223168563682262442716691837963724307690052109722333513468948112908530686854061671103200255655377301163018022839019847886475786399202842578144404904227274036166889223305508751727710209662002984835243154319975639487579673578204409498201926887298474614080849892632271226207742999396984213102808876050834784672864327249257172450844832339565865352369104091512429402422367987784663960936949619414486210895362494849946295042571484196524542936697885082054279916752215733775099390526223687367614010814492517544033690832235680445343797803709834443832080273551362105377902681943804273919769267505296376360031760913781300177751255164267847456539332999961342999879555991742646833236528802287834408189514273947411533343482711334820390666730627612461733287779786693310636190772665523676372071267641810399655466737389521641505801151926906647415076285769244592349890926209008129803076066554718696331393203437147180149821084822931230993308311459666623284530948098193803023916725547679626103898801460135362747346669982131595319239137227518990878371135667281727480928208719881209115051394398582788056926813521586571833380883154264429787105296808120692628126941690742487989828190960555937451663464652026443194059712181530432792636696593477629912554100039980876886077992424007207728970161581121911947020670057850696358195561483390285232680332332929857659438810031339668785834756790728734427622690993865534070793269538782133230485674934607586815427714854334072105826022908885229420534642167885778450602137984561357600629370235221121779995646178782017317399646001172966479216239914318833677642847697440389029116365518991226350893799328281108008176784608055955717587022134478679927010642951744999895334784827545633133801746506671397146094187962903434682321758210427985474089693649052481763421202794068088825728285990642951362839413147622275993250101483774415459820733199798108185028625324822880630945345007831675372856638221012359058525225164588597496736083805932179873955903902267388855762809893114811727979614099320853577875744538842620777100162019660408591615704299320769660993956958102190003657681722934213543164393131487046398903951292627616759816785889616438597877188849642503060029004666584403321442373717018888405423970126926829200203019976139281343333978849400896132811085389106518151273205771180684803739159510958777803519537082448052227130320884964524928949240272653564628739058942345419017915264981609673665374064768805077960389515089762173142710975094410850955971758107540550890410652025900079759955307212825615187835273449866950225305563600332675948974712813096797697344060909122789653566565068357372137674885524323964866336133221258431839554598048129670514664914621911618617227284661167045955836098158127581189579327797876024279250974912979334220726842206150808406855850098244004049296191322945556537968000648581333541353150938632069835966590609385239186845558116099294175593465316139375656255102957373156569200665185639669886166025792017797821951019862764682199603627137370280778621338442381823587843450709849816095068465925927908757278143997984416666446296496861842145293136287086806505559322061810307361120360703778278354320999522381673422312495516527844335753725977718116807685937831621785818608362668935746263610429671304802340392195783663700770128897136750136664635363088952279781906949632606543312393583360102143813727335640770788620215425374487834373095720135811427897109833530791003986429618432598030611714544897919025990523960730439202990055661572857176791347498641064418544530851606350472003901810819370486424026049051602985973311010346656970966544403082313936048700621891840668468593229342340202749896533709280349848422876832386419472351045009516860085182142588195959412129128279725066006183827783698308590139567637117535520369978324584061328518973678778942041302679902128674855572924484637440121699805146396703058226063817630613192275850080432414157463701349763813326646350455992061179477505237660558385803203240575624417777508272627706258580065941318572576980787909988650499979470543632497170018460374351265816859209926208462085369680678291824711846205251903127067805376842127817956888618466677023126741237415353767283374446220830425860202964969760851589418199123050850293626041174762874031513273557196613173004633447277239189440088405675195482137352880949337607363225930917559097622894908039415986370918296113987681637502462429751076335636022766666548556877892144014732956257976628804216923171415323279348449529621202540000037189856521629397456113492556542434192902389889307730079354477463114529816253640033832564996033902294217523483584718845801472375235475858460648034191282133256438377865520837616904926137929401157731431842750181209305888801933743368973634927066331079799063213609443327508214280938727045801193980590805995180541678292527290037218011354497729183515814431634570962901947788706584576922882755658623814794412536656112002454389603015991027216425436287072345951970347469744156381886074268517608051326309012195654338712787444109439695175977423007795338737350376630325888275500561119749214339285033495668543956075981654762710448368798238525355306247896909637944781151972405622801536164677589433083946476322188282028278976379007969918249666688502445992451046211659872233158677355388856481700579799999391354250243299517979678272377476797853132343146946718343813343014536526067641960858260158872319461161800053733142618241868714006509998785805911407932313048628773523406513276345019526187127176656750044802158456672055296046897849476877334096867973194582558134721936138364404329944991989113858917704086770703077497561294216506750359019042179020516597377263534166087155732464822882929091713932378192549739150649123251949160372569726188805228872489857110950221480278687909761141558235937460847075491562979883757120299856109130013960711925545561325989282116963130881009735238146132312724143993365776237504189233163695316472103338684221583554941699807771547939748779089575538165493751970838424900648161074525250523021756462743898517301456641994137747465476352162998444699687598536093147336922194958925020363260307587033006887611967653957645131468176210256951499112546012509850760237514875128510294543349020647215071353397608526232818881959520647655949226278754895401481691597321513173167066945735195854510480031131896928312938810083168855474959315170545260985975113800460421253898426156719479243152590148109067114525333094730343448930625420656888448000134461496971113827881170839570201041889359072971899141674939587942669291555539647860062607106466344435290062348498941936982960377647501620695343343487380347428947958259521647471524167908052613883491663059631762372676794436701819444574810622619779689094099656981835363649049151877881494218303446999831300276549586248376423604562638150217856558021802934076715020025416576460749576467403316263945549936882800680888112632497608622181237877276178186896655890763655603674481180175853916248243297804048146415495420519099492332105108713883520425128245337607991623743847218092145922545750891454331433481017664928988557895244852201231522725522708093629699599492509651186962939947239015016569845551317918505601289482251183684408895536134168137952038066055067632061137130806360058483863946613385806538572521472933787695049648649993839821156851491740034101740155899889116000531185150404250602485881589259882541181623962598806136441023955588978057137106207678771301141035133772840691206478108030571887250514399919237287154880643320257895944270131908068336059342308530814878256030149207156326388068256789386590218244081240011512411115324316639208418923829265744545683045322282726119174331602639772567479661419335981708931479429231246549861735332059859961767985889587921828769495041945791266786540124683169196271496704645121842206954324166233243845518972828513367878000440439417356683443580661169118971314439088363282865027723876115703570125329660749342889189941009503785129243162374081191085144478686067807734852499885857759858553266271272210100485122151710243239167693816891413380556265444681229328129051290926692474638515005661083792840455519112975717125099252565513596282897164330312950135383872540726323038620011162074446292248905090347200746522390340268268952629743171079836663227848144358564932176596137365321056575402668376052229437247601340564393485600490101158376255896147051806494877515669299510382617748559429251196955846982716069532523078959604418461894366632544521380083029716917163495062437358502711364799060507557173900966400471239367745930627352166294861948185357614026099838730362296607393551447216331522152500794843697155292913241975642401233583046354440075228231139352241451123140634168569165758102039229240032939377419406219831958487244012218424674193894291406529116589037917720486096119372246875433934449689247440380031924036989413866904958989264858082451561525806973395290020350012087224302020309011352210845347743939534846132453830032138735387279652586783695499391055053992883384913705274949158101357151636653815782947876200237043083196244938638382766518618563294497669373997572802113328327715470192481063739371271225701311456032289074549696307737262896933297092307577412494042752854773650259961287955238850706491458732205268664173002521885077420802722309175198763447181771067297357367280683868941482071068866564878539206773788297389873065136973637787299230522729809277719736808093390901587366349133596899526709230723047889722358061797394134324578268490394097693832402926742130037025699958804983888066650257389443530591917178435438950987154369961408250964880466987768560256850780663389656338510491908456492376189530459272546785331725529894839394149591852338943495384068259372794518900105309855561073140013997080265516743053496379909751090370711258088009111874427205559874868674355168562651942506138496550765433359047608256501693380993573864259278673903115854515533593230004755069209765838553326739891342264648254602400945243393121288118373433066292238515312952052807068229670995399695503392021006114199448967100348650947049334868560806708504349656005845368435236801171920286033277314917898118511287893058806602686444637190026189542992855975668995949599266983798716819542457618598785198275624868292314503857401360361557475187114376253159956679532366314726306130603669155914820634894361294791750882499698784699558632784119039738605126376286883674025088763765373009204630494966566149440659769873851397568028592997545909847553053432695421606391094583614451400507650472247619431006182579695255691252161026694806464234867628787434894506772830237036751504223443256615995567654486230714626925746121656323884633390362153015770282766492947040464948930756488733809315019404506514953674518342471024928902296892652387898301645944713898167471809348073511627011987027517216970400428890011946408062467209089986550289437445647168427664485070419778564900622628203628171682055508543859980371352280956586753163712802165695895865921677065163698416072018256034227748587635661975421974000250795197029604408987696622834513580077428855364331987472323273385087477817109126311129921957713974409593035049994912741512284381121317600945798815182923103163607226803250696609386404724910606849147263151528101738384693813006461877995881864302789983041743865015436310492731903014759044957037478129040118447288464414900821631503534599398825708196660317976662716895670304824734357898549471393996358778546858787911340137219464246549089674938588037943836929633402906681405657416670346394565157717383517700225050275769859621574023541333262626409700877076508933717408043062467058495404614106028037505883954790901967619229829070026180623257836575279062977930837086809166280687042641739617857195032211680344583652641201599915402880192084797673807918486732118544876080949248676876663402687324501560648228628872633939064547092137940233768601325076462381699514404871589623115459306910010781402664005997866469170896194162309774998021431404574189388264999493829313655751193273853371268297087684308631077314368581869483715258445645874751303312161325866458649486601905551110926251947587642305795751412867271524566778405965735533163940035159843997915930585840131952366454032708997798804284832100009254938332407567730370066589967183787290316529573326771033770873454700888585069753856230555825832280555052174203196629970877226252370392716856972080958992645480075297480241390345951543129930322409330545982663537175189749916764495904409513796244694835217052659937749662835426579307341192833387550453229828969540787606725950335236963128536854251637547674783361549352355831808098189183860654799942324290794878356324316799459921887910905447181003271236093499399780799804091377916714137569416940078817322104166874165836799855318080850521349123825457853470586771166876382886821697322733108220141969626612888146230509267076128308218992831610122646507964502563057019653884071328073067727881916086227119825517949156404330002251916347494212189041868571976927565637956968727296469693542506815903751218049546728823596255390248455405117716273452593023496863407844115325342244868451914878237977987820217544139517346427626860195956304336401448918269307733361020588101038332118270053710080424948523678429252950178704051207233602558421634250729239665009691841532047328910108618002787402048557294844720669315595037407743600996125857763574466768521861562471657348956645530539527852651365966795567617915909719715120348180527923839862650582400204164182630704996483777421883682556480917913509514686354451391724893852136528510823042915956874806878023687186306836550145871773518842901910537358706671131507706735765126335758712602747628969273485243299315132793515154902053992531665777643895389075318663343680461787576953552422545053315651946074834829381200891053883384481747439077956042120942204895739993864667555418785233303663821094879873045587990071645156263059275360141944358103117353001702772754021594376721389303387842220605084261667705716818558106977103756578650478743695582950167322495031560965575065575916567356383781188756268473992350088624832567007460885229810515032693001942698225847043001688370188130717292002275369280169882903263034975607774678202794783921757833336629618623144517826555672270186299685591652787534356004031140216553079223206284405197825434635283250108630204699827769640811718334336756026098754723749899604361181391322087983584500274252799704827467571151735623372747562471489799220563733666821414406238350161344131870722434425786122108350973066252243813393266908260349895864590071790072374179109589024640105197279766217705422795041636178536217877451530276995447996927984055951174843853423331321683679354261423105585669287874823051376526574087165985042631309184241859863727785445057118093066932658680980297356418289798827748742588445449074246807320742191836485242350442379425335162427675295315080581861924288132242744922594390248037759864530807586398652863912186001100385181866101321316472260509154291149229564387652634410454620890811208824932995199678194666533608359425974181121352514479149643986156936986303592706311444036173640368786853810229842117500646717867167574072422392854085866681169650661593657461271733721821350154460676660005229986224276519305140754125436668174379079917842936190068043501635982489044370734912089934144578834781389314012024481752207844914689118472133133951037446049644915841604966009105988827609690161479030157148671247063996951685695649667937915804373859159935230788812024249463219615363594882123061822950538271160745185520976479478726012637700429152739601336069697504682763170442128660577542680489943665681173780706058799188823853164673195985437837519399869062212713579743079438741834879751551381121414472808843421864745931834267068329603101742604812521951842165409165563930446961289223684651754424563031858843295800486279350724085557171072648348983730573809481262247977901408642519327994360398303498285684264783166159674501236132943839037960905405092665220634668959452966454053220322003218087909685707988640577020380259713110435312208307978558734520948565377460268324721414798890312758563491365332186445580223552414066968903219058796148608979638038072619291211490788950430405271212612120498745073280815169560995481592709510995275694939880667728811298519269738675676344861194833018621452269991661673515950679373905560239355084502330921629235831616648768808995539630548564207843723018780585583088313280400978830895945311439399433425968673147315105392042661712801328850700940292646478184148757454048761089802944539060232107391155396070746494629918772893978364968405819747214610420694926226578585814690942758157244483433102301852839652386391100154453769457737871633560064643314026012611537407899701758039413550345138498328935800835688308897884659629353378271604607878728686925866117526471978926166467525012435670115471037710287534861386387104300008767067671265432017232061797885855570103108005758193908793817031723913408024539676875650002588317424694635896570673705134231003659787464094149253774666663148638749570634440716832821577711500760306802475605584250986331259821971690801363723658570108631434384486360173633828161536775968220502724097479060045561825054597496960883212135815948133351481400857637828339845273383248376982290256610198889104163750792624619398174541343127143479771875901959409555523948642979055991590711143973177881410925965828153146860913849914135276964415414527372618817104629681644513967092352906318037055359840478114268007720863135940639566256670135412833812587916998830291210209218054162932009527354968677997630781516948085396383267791085073986635677335161181914718017153639905314700367338888323973632795715780075098829534071285043573426244293584335542678223147221897589144724304946792159635672484502647564333095801194078730031545117342636198366632233162772214635005577888604657852890142886692267552474432186602317718778344843387618218031792110907138639468436642380958866784539934659467152008209309851807894607112856140218721489134388057296870327860718180847139528491793397052497122569572963849861226781408747930111406753841849929254722437582057992900767026930441992921141514207879667258662793324567559883700978936984040921810425299557429432808272696223083860550542093431629737238832551187707087545844023217396774951999576496911955712427926024000951443309390219704433071742672586092854651316944496654736142914618097420500146942229669656461245312836662443912446169890533841376135016218480594361892076411440323892021788502886772605552860675240500679360035553180808453855072090868938221359467931405627068795192677308388221709255052612821829537654297605588252784754983741906250750045007967418848990395738090693484516000612279963023153621369099788639771838789561192224481464570632429620023203199638003442636793354329814203040145357510590162075028020679033722663885621398090521168739738703105616641781660478400536651406194416940179795030595837671881588431307674733514420812625902461860203463875322008834847094979107403286808590931675119443853128391619806842704311214272858102045651624833867966299722960262675828785792742775636501219223140607158805219355948506877449149616210613221247870920045864254211875775800133594562320798725767676710408370360614543903434569555933336494784192798649603460482767957900979992754162646128275471348384624334589592646671180430018382098481201375090403869365432203051191203279031805332059649254703442635738042096558754515983877107373588964313249150110843892116309946055472390387691115182290023450336075267850537286891931373061115550187329839352990444370849673230020598057188517272868183945013404348838546155704194034844962450831949182662700133705184720529224393735443432497612428989100575219047332998286766201593690183307828419851469517073380259525046960164002266296259637699910707414571124090400494316055888770045908603752813167354188340512412968538815822394861836323093258290541259246372857242595862486643149286474091511357086394165799611031721746834365683617660898658289463799976648096479530919050343150123104992651835075515092011224274303543177377703005209697999249030932628066749382974896882933112942479898096420826013371381519529474686843693385153113572190072519561348234743216184695148118272733183095438068713916877586608842240271601530296330354333238656609803699151249968896244142339598795848177735789535755489727387939199953366491507530425630652682056543658872793166725084362515974834167529088137051438710510727481386645960337698142077585175529908560898822993162956254544503163852570353653723736722311566065964377837535944719172796087303490755657083691792089825186559495193164658859619702888293002880382403120699184920779995801551661252280774791863266053456368730886719915731683600022009271270858862548315396894903577536182798584118453559753810887911838750620033616408042116325199184580713742719923995261135392614641330597146353347210

/-- Same table for the minimizing side to move (AI = X). -/
def TXmin : Nat :=
  124725016451217970639660275795059007453032067558310991282702912801274820342588281686732295125166787502281242261753049022422885630281930173931368287707316217541982859942020449304529723907431669661440292640606152057918193451527307265004281343015674576491923234256550510557711446864892652944019081077609055493329730458963906609800442712002917716938593322157596635738503931961613881214634442477680072537102546402878734957900701895580043384588278737052760553972213099182482434234082774932890589927359952656902441507424321501214273154972812209145970409860175835435933267434686595338721893281650784064776201945489537873336769262354346197640122822020618254739821149845107470338145295782437820185334940693570761812159642047879593933188603298682080591845536245965217944930704778796437903337037777105541112046440423792537356303988995657742651145860796400901901854957200734799683893887567242585977638732062166739236743274607320729237935882344078846918118362342521173008244959137833144243075244811522096143256038173227659794479113405867298218288251572129697015046518981900772755208751537540505407982839675601880673938216016086600076751135524747919637076846752854199076757415451881579763708884771109512153833486887039721388863348906005510331165476263394121365722454183878822848057311086742105479599137944042933406186137038621219442951649326166709063567074094766315116937682821221939650888145305632321864832256286319908612958116596298508196666274526956062816125386135374257505534438777771158072921394491382687887998172971984857918254072990397535522968824340065696122187301294377760609228236693045660995332615512798197497392970624953444153131569214055537071816404732803599998277182034806231953856352293801314194459495042179044162586363513547068390332448020029642380437455766283024076938672604021005625019066753547030689253078669507564241818626388618265834967904796093514139988307130707590708687194749900166348007737738804533776031645044949339805490734500133189859355525988572135513067433499763198792168990289562385570956407608004505190682476913240032677611875334993385243304118687561949332905628763222647197792824572279600719897227978468727085492100955128316220228344495475230236372517706138980049363632344220746905686445689749765866550979787424898364145391626760567007657938614082768806084221625197926664530115339570502267431998432549549657256580169610033422213061548419653891792073547439926879414846401348440723767817271541655689457996192885816697907386573551679270284123701915719625515815566197926253549987314524884584329316033423216409077394412679542000786661873212548096611578022795545315787973960133400191964628208037753575344500404109344943807731988983138415181079259390727085424923016534702629671839626269576901053437640498740766932490893846254239343225088896778915762540217188828127299872192259605986348695198258723291408590962213412976655067414956238440260463996630347100899751272867435236746968787212679829402995745553787837759578955264351990843402733528704182354378532374894272790347886785911640708319831469833994557925353597735499047259338896717943304157837855184453582523590620118735230689689794723845517989009824944344398443781850427199100006151102300287073337465490242830858220633795035465401265677875804786948555851385643722569172153796860553957239728814391200197855301188715730334286978025531713483978288531568742002983247885514202198858134433208879233990112853529073217298240259823080626476921113003242186294772453690426655276451977042088665247419522710436206159846174952827977066382162188125170463250348345381384650847133488279024535599382868456605128166549394365690919785415144811635862659028667004141589721178623135540605103712787687144258455323788737830420495386979626429394100674879854517159119437198883891473782375379608477356990070845585082648252007817982774881549251834272207871000697514713397747845297008127197365466906736911340980229866535243887260341687856270645747443377184588207827051219586669113284101795990946564525978393151795140851073893065470425658419677285599821043822848327944480757017836894277047130053678802615471612656546903563938765217820866385093684136892862832283464892386511068891063484169573711757621429336980752003949317721185113909082555424437355773713926523206711048477026425249164504373940572926796982747973185028898478046675936548310726466488953799626132736992812735546568938805871018136088752494656242576167646328856992349405538382663355972758883888692191012407685269341604284209905749415196831376770786820760005263643704315941939598588916086116127025436322473427371574810500503674766258445411413228175425550686813097065552892647491197324427123565787473445036746290379251217148344733836433566441071703445256604699354879638846551698126726129613536145381276889846600771466507109348085623873998753252454082581942535548495209019881893959321478473193431134155550914291405696606711363499443395839251814744134254024938648962274890478691130354623371757877886858510635300990035750080630780098272484949896354501591311444218234333774008839831184440465033782226542370161654886611253313274526362724002136131872452159741746693736298487247100469728660651442314140312015702285351779731571854636902636409955267290259922796173858406635792618024204256335638303984014871041171081313226402943246008981027973799427598178802941839605063849043194423926810136458861219431338499329856571942116845595477773938844460135044309601359364720760613987475394419428434773909569827901447816542702186823908369569889954573116711763448125951251290386484144490545215246660011018457415149510133460851199674311211249669635625674202775487368265950530460394967666742066710724608730316999175420316052664755290976357026100555623128223206109388363166672596038029491186897918758198496792633319642947436026786372994912357318325398475304051195799144174705650779651676529181542542441068831286469617224666721061564107661763184854067455228232697898833229869936567798541923211577508894827630014963733882640701409319322812871753667439496251879120100888539808906279586405436688560261311392155703888333719042041374976322856912308893665526083974806804071013587103147415858301956388548114911966247423557489381043232083243148192692393366014818803460188941233062144075023432718026996779730129928820256007778667806673124683249589844916184676673205558457275780448226232149676392128942530069384436190169442633650636864141990307952195975102275445835758204730114146316010673369531834035103777093964153432801878247059275488558582048348537184881469836784208081955986285664663449389356168822780169279463917568550074812193129240523451594012405507041131075254961239953261657479557224566460327877635435391114990574901130722591723270471585362395891269960250570669115289233083771635573397536576937678667140356819379889035494571629922285370528292411865203091345606893044233079810493324671086638864484266794640301166938096094505584492915139282768868217479203464608564263635132959084386351420146000609019425842222416770687706870454344621519827085749239011046291284932631532813053604740300615727333989344245423328165674538529374572908396040387093392896092576618633215869314558243772406417308187991493219652591949590674077439882703045526729158249818378122961332069872164654089824222878327710913970039421794373526642445561343645110748371908079778283115962116607410199760057627277159479020894331239280075884189721061690878279583475164223244374423532741469405437464198809527333475839016382736463798229480918225862548531145047868975865516996176214807882233968005300179458222691203135595823892391288844095218023016030424812501730764358102616923156899476504171250475017749599393781031992648128397771425160773979139334585332236332792696337136190649927122669616383849318744912388611806078037736899948988229607937722603565523591739702940985370268260077024009829542222935713302814221134052496561998681586216488244759733071031111780037990581941957121371995068979066957566688831772474978031015179571743505914245301238883638508252651558335870694179100016089558690930298996301443945854157755594031824610340724139174651916552934047068757122421172500385085528646072298449305336634148672207315298512915890000396551711167008290531916334080640342628865640016325023710036714177596379899174842674387040589437407390369910137210504855665833760201411044648727607297836959733947985772465241404768960265643858321330855370987030766385591859441671558896264936088593759983377367639130335451981341174066223999413524210339709541784207361760403116837572092226731858335528730973552905074951333729893020656335222707509912078366207165505382416712042825190596198685160358497169201253284170310715592695246781429046074995148616186071088552068970068441883361460782364042406975390796865530683239844056329127086328499497849908920902637485032491619891038357526948724431638630236433125311304982195105336559839507840544646883310841262954785625740052975491034794813363643199064517857330146607465888698532401241597726079440158457904314739598304355882217067521217139834815310831847680010300691339857210596504499829525363713238118758577117155194872716635086937190111211986470359254972722787058781864596245667323774550973113747876517846094379710064021664251952300292861154635781019072484206868087324895906457673460285226763930142104254498042865990839097767457912599318177729651513500340476509980967516929783840966205000068106323426462248785609963026643626914063317889023314894176497735310343455073324843722459801715091079483202559558667096077174775030108542424927627280163794888913061129564436684902130989175710935105244676656433142901792799796399087538037246411687012831810868760788751897120979312703260093084896158734013588823845619996267973959907995620919736443042466540634771387556002970417402042323762097957915069844029299708507255306353949438886877769824587173480021196015411271501223203207031167193976849175567567230037256166653243845040861908332206725616953409963142014055609218542238717839942324739656935558247410949267286372932364180556290232576228168910070634399538890110789542130173121646546910032519154423189675419786113551605787847173458675961667947397187328830529014729677639253529095768032666802394235299867921857909461942136988551804033756128818243223506591822403531358294600358954996141027310334350074405462625780261921890735450549277241066126121954155170530593483174206116712593015947894626704806067055165181849817520106915189969094485468413009862432423985131438812404421768526031192836286757751400592940762178518364266444003281659879892717297227258478974507074103779488018758665897751619700167614388743512821728850682111794975265930151225579898924445369949703702067721540767526704813602331678482926120610323619792973278831255621091557372127551007478422726883831893445727032688036092701099012600555169886302411833329930691114716141050783339292631707169157998758547270515189183379436614411717302036973224660969173107054531139423242430190686641172915426939362841462643091271665244206864646756871961927736561343931083126133188345523838622784546636875780230178805152173875638515935178467403211801535313298790701841308179287934822530155150183017749006396717136163125015916812882785093254389821199676631302833990207620255612915586017386150540150287101060050412962660974775176576554991070573400303186264484500487362873843120290497362768632831014888184413591896830670751510073567531036150511888557445020023853289657400555082933261026422308959412914744403586699856103814053122604674136020516877416657918299667701048621676714316611233089484998298426336978275342043605258919038575556609826632243665631497893566765676481665193138256522182330768848590711310468386087550621577965830389856302141696930145978654841418908742720810227073461298529304173184640926757514231079992314104516193475220696389650239115802171195773145592220040905259805729467307082127565205624736274955778569797332523367452075434665813258329557851188202740606167672384707628018414630526243679621210791685773143463432689298392813979240790175985966963808853507895917550758973423157491403960577099114232344776674199126772872453097696558581433232268440958067936206397047871742535756270006365113709048677866108697500053508687897124129321329272783448185262709863100812028496889032881206590982937226154946235693245899931700580783130462350643917195993876406392288088882379324235711117728214986692374604751977414369750141963939993330593414515438628867542067671042238677665854864710175684158004959626206758488789545084937023015631339734864274366182317156212506555701493483448714712697708537835023068504771955996372122138945201780051735295215711536437898473138862609027569093128698362115346876974117098855307514599453646527352013369588212664980785826587226544580456274984955442758046062372214021001604416586776262390925364109361498104612197487943645535887907805857510079817301571725588788021144471978757807837222094445865122395556014932621810724134339439519019344394527697040805535349795637404578838591718810811255974290901393925246120215977107562443760915211928970738494278847373692040096228675261502818694161098011517164166090206020998506700055218281273177483164310463376063739129977570410278456385109534216628195258615897624358944560868728700710369126501846564467565116290276560994801342140478507782705893490573693301479832767730553220208219518651973110547733508716220592647203718338712725785862222671216433558553709644659970978141572635947729254240884613332673227050734556884049488539578833711484717753617077185624557929169411971020469773518285280026250723181233695185043744718571591655691256496209445822619954380363446952928242509036387715672688511567359635207014797980386938556227961153669119110956539196768495114630536659266238861973416974710296257907089303669749075226793423161947945931253866595381720764461994483908108710741234801574189968144081954199385517674787778899592823272958817121925544707513663755432692855395925047008670252955319661886540054386112784487283928492362082497860705967138908053753660947080057118182432520090184068210881303928757103099355840206832215754857846073392417527174425664264466419332094757780799807341166577435119488645301561089040886944650897375451096356184757826680344287294417765835475116293377338722798743219903280791472139426211848316106574397505978048303615212479886714129430823969776435125053315256076449470582989197401750371206572387450283157471274726615733202191827034780707380409555439960328713020178462439148539338416286801531321109058164053568901243100070851039965604837202255871636696431757245851702776214432281889332731198586199115772002147087064043720369792262066122233037990889085017013070820756254375295687408775261848512935349894048616488137056584791806376981426188102565292526019686299777639227329125944437181820298871095587020920909102018433840967314261004955176960125747956304256451259992778679894638651761074600986128957140901877067721086519527714578018389067628714180170260016890042976387373813618459446414790115791238902226907930784937663037966249014252705802076277475907258317143759211743670942363137988861468468720096348787568303439643572565149149424961562931064074653925754012030175049938895329523975650527069232446396649787082296286596163398025324203579045411334632176967801175416014869584393373462922143182689473778927521702361627065296614279333648045338308017495296597221853806971329185895327816587944291630276703009637434526983073859438148640125678686273965989014705651667725985434762117857162991274063046446528951276437695974609123820261833157021756275759782288579405657482270809278223200688280306686317733508451402500313717795886392628173044839265175785402965053840864114622889006976736629724053595279853874992669504273988844348942698846460293045914007232893533137303342897766192852273647571129754013944558488188422304539374083973470040191966741666954260734540156473460906079794890361298715913647494884276695441645392749777767692293215746510514385328720418150614399046956128996306787700250525097936743404483730371893568005184877479705975610815896434547043729510598798997860263941967486487035492435819933540222650759555292763546027549003993764267383684455449243273116201546141770337130267269268091250648917849244637000976019580143422874574882126980932266520107672000536361677740375168356664509245497564729139502998074025650198037142293948949594463083727025369671792695116655604677075928408823423369240382654619231427946233200432096276141837216638335352957123120491000036523891679707297077089728467491807945903535317180470806896582724052576217858812914395590983928253848723637449904761978402564846061660083508784529989977463083709451767124348108111662611299319798563434914321458942711121042679202769525923255140069839992971447110716065066503469384525508064589810538453499103345349603727251128295156035797933777582180003802871269613082400408415015136853466881660956548404016389701703947650224845853328058433915120933971465528043991340729470778150988954675541116526456372763884886440843395195057470023755397379565789065147939062696590173992091592541470632445672334668067951167390564695863110312069971574411021866147657763972591007122905353197649410971221140028443711757668796324846547578385940210229517377511809181164511273659374684649694122763999038360728577106396510432164481267795376377495168689981958367744419110320284635880948382961168856288128349898556397021535620095710533415535789443864613059769635114331274950890596281219008423342336357031444888036868755682730863039791544220479102963227368426936875495400155171631384121705609003849683740471652175622755424002017930314664071965060945648730433853590563022082136485411674702309829772340080096151200939623106555370117174350777163484460790729098206334027589354681594203234700015111123495175637502353087885859108768883032533312679777472493278074888323731417884311067187786866904835295114155803671757062141135252783051635746775934492034376429331012483597920992508799306599707623257824939289377189821288617239738193984518535812213318700419537516671701066814156773114900207634450286893779237386667727807755906261931973172873214510809712147429590650897236722234767314653002829842781318786452210005447905669402322362582533604247470441924849566542029189406236205173253713531580004717770159760088559196121157493719412955761524089361448732844795139304404166443202991038236300893017124986268963100589328501981070334061999138144981778903842924620818725822275995355590712610418230267166844056712716473945472064768570571244058758363693510460011734736379169385681176295789710415692337313156876306803330699393424514498872215116790444425088555534294693613325270819753969906598992465833903465274095529513664210228093588903767759762621944826576316562241816592978568510545163022838339517298875297937527073425359443357642744173101991037714183559698891128771085373617248149652975848129723727552203968697276702596336745508323852620116548684850725616491861099325849252286884543289678663352032574938606544577168771088149455602108933187917695039450297089431704074788083866158582955838847681742315442022112697331703980045272127500005194381223819186713227035456819461345905016667691892290274909875062676047205219503231514051890986728714596167774279330223578362045320556520464188649466955557168598746448081833327245716478482248947243390991176152871186793333099139803222303900806382962425755988935511765937246624287897139472575340639925768574402751187390753631601627751741557357606514828406886898239468661252156903621994185528288184853163792369951920504859966956462706697616242967243846547104395985261435798086899664923427903315564330364191039684250392362190493935870833526308998835019875109384500717944331601991380367501762127993104702411098322086843496787369469918187261246125872051912007807532052766256136290595040832902258422595976046751310099938933667178412251967388522868765483677220083297076088347804375505224080104549555498913529502985330446445009627130336493810317081614048758253958077557168986581395818690215655278586270044850342251839643663474145290377646685871093698994607248272781793433162522137316553212039844803614819555555540790795887284991679093563430149748964822004664394289067043088408746864351916085493907292601884128562522790346120732804516908954407500754057354286196755978943218290839655831805577803140221826871551417515656987802470874883113388954239322464287094352243568769540200597407013328922267142777840684747792076833119078395002494531993326431181849728185869317673348541152824730529670634807901918628520715843125528594825790776787414958058860146810371894739464651998825395452901395913879462741396963791681052976786999884918468822234295237274953921021958784759217819535982410057854918939604162936624510408642765440601949057281141840144837638681714954738849913733958367663565714236375983919999375641057801551752656848959687742420552920991180645834122361258540488354763939520208434616832717581743806763719078757326192732418678306511682134137141153113539173972524753426145122281839630121500419966487569179916332696049046416168009059078839858354938137282555815125112225858312093501880575330125141815458434942299639190759806609852731612325765450710753340817797571418584887365460533458781230157910341063576267081815046190296220376618533398268701237914929736196109622282730874004729248388845963913313108737969947489842063368182018631177973576866345953415235786532841373544779501402176038528831161892922113973277964627233172805584125893757026646908602942390020076735882968057930538344808291157704266623497861121259173892004629228041022831912354323639641492280234206923168462897373795425793708435090191482645919215782890363495297303167161890506817748098305108439245291875993173800757057882468854556158041309367030679556078577376567030928385917418630445360585453024259581941559580071946864300150370971727973345729172195336729218321398282915665865286448130091789195750488955466828628190991778989139911253611254409943938991491688159280618009909828957623050076376953415257682046379863759257935549665654838697396920830862437941326849683152875044574760410991428681231805225436320869376227253716625278414742778089727796119074291174171160996306512582052437018914438426738333963503364079199890359446149202546859724401358931477745348852825498265423294976275518348060343098508713248472257385226844781000073926961144678838333161998179867609589006860637807569261044339540847582448105523302724662033077586471475957409822531007291510793710463920824558512494646220420180600251714652110213591124835582698600169050911787463860619175109187669190673584298886047639688501599951013669673986463991960614891436656137202738856566408373266351907438707609767638186230382874388387323236594555071948862691090470118536617579484601666827598058039540454332938336426063283789616228796477041700512987294655552880948424915805160994287636322849958288538786925382090136428802423483169168582533504553774782603811354186074001445886750345518557805571102323511562619936257813854442269214942823482352627148602092805299408151328496556749799384878896039282156651550583440581337061482568256176114529829894805528144550670270900005578266770020142990709025005866829184534012104880375116909196471675068938391531362584016323208095507888805737715829352057871173901139124460232267417179649607897288195966650302019437120721109017452370580946135554414979999103959017992652387785038372697217563744689599766404413276059180478009777413156657023291211976948039410975536767613349651865065348628013190068967252445267918688150515907854690018036317326799939499202183001975114277429655642933899372925502473062485282391544665507243095247622999219616147141912218083500099883192557676173776968657632661635969475817889454688496496390904816122977149227431103977659036986279497351322439698442573134570217506202079547546019132651721389580662852622520985537883867273305323797017720528272027761612193466571212709610664858629550680509037692364411029717829945975555246632431541334010065782397519054771617570440938648413147415584309262247093135477228815675220212681044660439499568516834523775987229638928294088422443442889093447750900318081086266278332260829535144190788537434094029083730873131345596884635122462126010882319011889240068674799690586430251277742574162255413274377173365985252843105565254753092487761963349237142428085480698382048387458727710673120479086890675753744257640822423831195471958942387683953807562460430742800826424939503577559220615916620986462290543635101437236200467111908664715782659337544150361557919958771628535691696037045285710463612762255648567604704890680307220494058153277506717962231998370689264939963264104998518715738071611017261900118297208846394303017922698175613715470155398116416977943349764809289217370787210531269934923071874937905371103654634526578245247414758245125316939859788386808461432065541665158178548749779825964713970310563845417803998648641934308114948512590412262663503909165889564403510313331981494406800523013203037767714921865842152965497240638435180964972160546408227656331871693186382791370153645441198870972896379327477490264509191514417555895381518426217957888949478339658333674169899242102045044648101102723228266530249686873153961769312746295598396457164188647668746302842068930054284254823469242768522830600857461402785114840576353478303873567038434402992385674777783976390495106796222009084598743975165611563853883825773868600143732180177480991047819132053141995170307860290660031837848025855033804771684499747116454387753564683462442610007161180773235661575180865291788602124254605913938779860042329976732748484197275006861232831624483863914776827823240360666563593600733927019185487730616016772278781544413523772740487785702193815235673040425422601684927217248712353634849799733215839872980953038665181822043677746732115068131250476025344563850104277775743234671764285865770158826880715771008365211676353172189111013261439813738663685294259666096137283057108924301171506536837979095831616621763211675473148171481040125629838181137405842676185990611116664140213246032835750007290970399532612130195623737337784954305011297121192946070678647748912561211507172697199667176271278734833441772526786443047186141095867925331658242519252377571679848130712672401952417394755753081712385621417214005410038271719387196725841228742545526982481622221830851510211398723869766072012440108134008730528717123983332730982453773957141564075102238344311232369747646773238879868008678647301584898905809261908347591205697650253177624210924102191381294465961683832769665280811161203300327124116729936453782904476773030738090753716176126016641615323715812615879054286051834673604170050812211217842763494205546385255763544123976213028770292588438943586196300459215893178161761379600851944947848364293863810201428035686927831506431719612300071497625837158007581516595290475320474711444851470506368456565563621462349465084665218150412736629433495092610782788068040205622536880284053757031139732755377618678214305642061956686257252955952668307121311176472401150678841166220923760766968098385584629340027874593842605408646088523521342473984037059796725268960876104728759552698758813493853477586787979254889011374967941575631448772154116484683906093802469675858938173678944169859248647369113172471530843355534193139049970085237540427665130734401444749626703151697134746297773823503904462155680424538639323954346902632698549676744884099329316447918700761638348223888359730173176145008833525284126842284796011488554651166157721011538501542538288484872864283642646798323369168881693717007497905109708972796608601115341193764433298741076058024494040933177313395728340754433164503618770043434275222629583602640129807855216086248394680950043484754659731924115485037793151867480300274430289637817912105313892995228938525394042712383432412543201687844048463123251911712083309947650517622519273825463799236707536646984202960415737859035135020048262450425075860957394018251997657651229629874572785360799630173796377953963399405919688516383126651804500777534441137345785736228094333710779801149549864796902985106037230485849414864162503132719454196795517840745158354266825076951116380857083796899509500410095090387817139601125497771779769038150110816401111894899950070566182779511542707480502791305399975279838027939705175021847320145412751333074391041866269117681227576457115902675121373753304971010743407177518853704765427155440502356389108788502296259556620785830043295260504788814722449431809564117317477957804540238784978811692927385863621615430982599794263691656223276937956189877485178617570872565449845161497084703774978826277775374899496196037949468022105666900872068469199873381524124227015794571563927506804106352431743362815056652446380425941959754450171087650378378992437046131592759761214396394370923354015752492850187439593758463136130360779383569521663454291438008782536326985150603133298406932796361144328314229974535817138798571212797725581616785223617700915806589282509662092029060709781668828346439352068231954465079030207142095265471208006027571656726168350988937654287695703895878420798839653155201466436867184591776119928282985246018882569253345909696879790282974809722834544741901437795359363469235589481802942431970057532892950792862453986765475768932235504874729981638943081642957611896546542202321652992110925039650847596601284781250354438899795929073568874460792743227143215158277672165614839998317043579120484493509196243950646541185327822500539848269248274144746242242887547897262619484015654447896079023662094306247098010597644046785277566077142257571477007471698429545517705135227897567070375284068609780623027104176262033818374640323322154702552618500810220512175912950515826948320753354171696764239611573044186704783288893144057391610146345471922236370676956063857868677211948792225555551033790770380379430753954091690599627659289585828966473833288464360583434603725360829898275240915176715617255728968099744291004480515117623869011800497548415134459381006966064332083429170321644409210507733603028645048716826016695798077548981167391050

set_option maxRecDepth 1000000 in
set_option maxHeartbeats 1000000000 in
theorem TX_chunk0 : checkRange (tabOK TXmax TXmin) 16 0 1000 = true := by
  decide

set_option maxRecDepth 1000000 in
set_option maxHeartbeats 1000000000 in
theorem TX_chunk1 : checkRange (tabOK TXmax TXmin) 16 1000 2000 = true := by
  decide

set_option maxRecDepth 1000000 in
set_option maxHeartbeats 1000000000 in
theorem TX_chunk2 : checkRange (tabOK TXmax TXmin) 16 2000 3000 = true := by
  decide

set_option maxRecDepth 1000000 in
set_option maxHeartbeats 1000000000 in
theorem TX_chunk3 : checkRange (tabOK TXmax TXmin) 16 3000 4000 = true := by
  decide

set_option maxRecDepth 1000000 in
set_option maxHeartbeats 1000000000 in
theorem TX_chunk4 : checkRange (tabOK TXmax TXmin) 16 4000 5000 = true := by
  decide

set_option maxRecDepth 1000000 in
set_option maxHeartbeats 1000000000 in
theorem TX_chunk5 : checkRange (tabOK TXmax TXmin) 16 5000 6000 = true := by
  decide

set_option maxRecDepth 1000000 in
set_option maxHeartbeats 1000000000 in
theorem TX_chunk6 : checkRange (tabOK TXmax TXmin) 16 6000 7000 = true := by
  decide

set_option maxRecDepth 1000000 in
set_option maxHeartbeats 1000000000 in
theorem TX_chunk7 : checkRange (tabOK TXmax TXmin) 16 7000 8000 = true := by
  decide

set_option maxRecDepth 1000000 in
set_option maxHeartbeats 1000000000 in
theorem TX_chunk8 : checkRange (tabOK TXmax TXmin) 16 8000 9000 = true := by
  decide

set_option maxRecDepth 1000000 in
set_option maxHeartbeats 1000000000 in
theorem TX_chunk9 : checkRange (tabOK TXmax TXmin) 16 9000 10000 = true := by
  decide

set_option maxRecDepth 1000000 in
set_option maxHeartbeats 1000000000 in
theorem TX_chunk10 : checkRange (tabOK TXmax TXmin) 16 10000 11000 = true := by
  decide

set_option maxRecDepth 1000000 in
set_option maxHeartbeats 1000000000 in
theorem TX_chunk11 : checkRange (tabOK TXmax TXmin) 16 11000 12000 = true := by
  decide

set_option maxRecDepth 1000000 in
set_option maxHeartbeats 1000000000 in
theorem TX_chunk12 : checkRange (tabOK TXmax TXmin) 16 12000 13000 = true := by
  decide

set_option maxRecDepth 1000000 in
set_option maxHeartbeats 1000000000 in
theorem TX_chunk13 : checkRange (tabOK TXmax TXmin) 16 13000 14000 = true := by
  decide

set_option maxRecDepth 1000000 in
set_option maxHeartbeats 1000000000 in
theorem TX_chunk14 : checkRange (tabOK TXmax TXmin) 16 14000 15000 = true := by
  decide

set_option maxRecDepth 1000000 in
set_option maxHeartbeats 1000000000 in
theorem TX_chunk15 : checkRange (tabOK TXmax TXmin) 16 15000 16000 = true := by
  decide

set_option maxRecDepth 1000000 in
set_option maxHeartbeats 1000000000 in
theorem TX_chunk16 : checkRange (tabOK TXmax TXmin) 16 16000 17000 = true := by
  decide

set_option maxRecDepth 1000000 in
set_option maxHeartbeats 1000000000 in
theorem TX_chunk17 : checkRange (tabOK TXmax TXmin) 16 17000 18000 = true := by
  decide

set_option maxRecDepth 1000000 in
set_option maxHeartbeats 1000000000 in
theorem TX_chunk18 : checkRange (tabOK TXmax TXmin) 16 18000 19000 = true := by
  decide

set_option maxRecDepth 1000000 in
set_option maxHeartbeats 1000000000 in
theorem TX_chunk19 : checkRange (tabOK TXmax TXmin) 16 19000 19683 = true := by
  decide

theorem TX_tables_valid : ∀ k, k < 19683 → tabOK TXmax TXmin k = true := by
  intro k hk
  rcases Nat.lt_or_ge k 1000 with h | h0
  · exact checkRange_sound (tabOK TXmax TXmin) 16 0 1000 TX_chunk0 k (Nat.zero_le k) h
  rcases Nat.lt_or_ge k 2000 with h | h1
  · exact checkRange_sound (tabOK TXmax TXmin) 16 1000 2000 TX_chunk1 k h0 h
  rcases Nat.lt_or_ge k 3000 with h | h2
  · exact checkRange_sound (tabOK TXmax TXmin) 16 2000 3000 TX_chunk2 k h1 h
  rcases Nat.lt_or_ge k 4000 with h | h3
  · exact checkRange_sound (tabOK TXmax TXmin) 16 3000 4000 TX_chunk3 k h2 h
  rcases Nat.lt_or_ge k 5000 with h | h4
  · exact checkRange_sound (tabOK TXmax TXmin) 16 4000 5000 TX_chunk4 k h3 h
  rcases Nat.lt_or_ge k 6000 with h | h5
  · exact checkRange_sound (tabOK TXmax TXmin) 16 5000 6000 TX_chunk5 k h4 h
  rcases Nat.lt_or_ge k 7000 with h | h6
  · exact checkRange_sound (tabOK TXmax TXmin) 16 6000 7000 TX_chunk6 k h5 h
  rcases Nat.lt_or_ge k 8000 with h | h7
  · exact checkRange_sound (tabOK TXmax TXmin) 16 7000 8000 TX_chunk7 k h6 h
  rcases Nat.lt_or_ge k 9000 with h | h8
  · exact checkRange_sound (tabOK TXmax TXmin) 16 8000 9000 TX_chunk8 k h7 h
  rcases Nat.lt_or_ge k 10000 with h | h9
  · exact checkRange_sound (tabOK TXmax TXmin) 16 9000 10000 TX_chunk9 k h8 h
  rcases Nat.lt_or_ge k 11000 with h | h10
  · exact checkRange_sound (tabOK TXmax TXmin) 16 10000 11000 TX_chunk10 k h9 h
  rcases Nat.lt_or_ge k 12000 with h | h11
  · exact checkRange_sound (tabOK TXmax TXmin) 16 11000 12000 TX_chunk11 k h10 h
  rcases Nat.lt_or_ge k 13000 with h | h12
  · exact checkRange_sound (tabOK TXmax TXmin) 16 12000 13000 TX_chunk12 k h11 h
  rcases Nat.lt_or_ge k 14000 with h | h13
  · exact checkRange_sound (tabOK TXmax TXmin) 16 13000 14000 TX_chunk13 k h12 h
  rcases Nat.lt_or_ge k 15000 with h | h14
  · exact checkRange_sound (tabOK TXmax TXmin) 16 14000 15000 TX_chunk14 k h13 h
  rcases Nat.lt_or_ge k 16000 with h | h15
  · exact checkRange_sound (tabOK TXmax TXmin) 16 15000 16000 TX_chunk15 k h14 h
  rcases Nat.lt_or_ge k 17000 with h | h16
  · exact checkRange_sound (tabOK TXmax TXmin) 16 16000 17000 TX_chunk16 k h15 h
  rcases Nat.lt_or_ge k 18000 with h | h17
  · exact checkRange_sound (tabOK TXmax TXmin) 16 17000 18000 TX_chunk17 k h16 h
  rcases Nat.lt_or_ge k 19000 with h | h18
  · exact checkRange_sound (tabOK TXmax TXmin) 16 18000 19000 TX_chunk18 k h17 h
  exact checkRange_sound (tabOK TXmax TXmin) 16 19000 19683 TX_chunk19 k h18 hk

/-- The spec's blocking scenario: `[X, X, "", "", "", "", "", "", ""]`,
AI plays `O` and must block at index 2. -/
def bdC4 : Board :=
  [Cell.X, Cell.X, Cell.empty, Cell.empty, Cell.empty, Cell.empty,
   Cell.empty, Cell.empty, Cell.empty]

/-- **C4**: the Normal AI's heuristic rules fire in fixed priority order —
own win, block, center, random empty corner, random empty side, with the
first applicable rule deciding — and on `bdC4` (AI = O) both Normal and
Hard select index 2. -/
theorem normal_priority_and_block (pick : List Nat → Nat) (b : Board)
    (ai : Cell) :
    ((∀ m, find_winning_move b ai = some m →
        best_move_normal pick b ai = some m) ∧
     (find_winning_move b ai = none → ∀ m,
        find_winning_move b (if ai = Cell.X then Cell.O else Cell.X)
          = some m →
        best_move_normal pick b ai = some m) ∧
     (find_winning_move b ai = none →
      find_winning_move b (if ai = Cell.X then Cell.O else Cell.X) = none →
      cellAt b 4 = Cell.empty → best_move_normal pick b ai = some 4) ∧
     (find_winning_move b ai = none →
      find_winning_move b (if ai = Cell.X then Cell.O else Cell.X) = none →
      cellAt b 4 ≠ Cell.empty →
      [0,2,6,8].filter (fun i => cellAt b i == Cell.empty) ≠ [] →
      best_move_normal pick b ai
        = some (pick ([0,2,6,8].filter (fun i => cellAt b i == Cell.empty)))) ∧
     (find_winning_move b ai = none →
      find_winning_move b (if ai = Cell.X then Cell.O else Cell.X) = none →
      cellAt b 4 ≠ Cell.empty →
      [0,2,6,8].filter (fun i => cellAt b i == Cell.empty) = [] →
      [1,3,5,7].filter (fun i => cellAt b i == Cell.empty) ≠ [] →
      best_move_normal pick b ai
        = some (pick ([1,3,5,7].filter (fun i => cellAt b i == Cell.empty))))) ∧
    best_move_normal pick bdC4 Cell.O = some 2 ∧
    best_move_minimax bdC4 Cell.O = some 2 := by
  refine ⟨⟨?_, ?_, ?_, ?_, ?_⟩, ?_, ?_⟩
  · intro m h1
    unfold best_move_normal
    rw [h1]
  · intro h1 m h2
    unfold best_move_normal
    rw [h1]
    simp only [h2]
  · intro h1 h2 h4
    unfold best_move_normal
    rw [h1]
    simp only [h2]
    rw [if_pos h4]
  · intro h1 h2 h4 hcne
    unfold best_move_normal
    rw [h1]
    simp only [h2]
    rw [if_neg h4]
    cases hcor : ([0,2,6,8].filter (fun i => cellAt b i == Cell.empty)).isEmpty with
    | true => exact absurd (List.isEmpty_iff.mp hcor) hcne
    | false =>
      rw [if_neg (by simp)]
  · intro h1 h2 h4 hcors hsne
    unfold best_move_normal
    rw [h1]
    simp only [h2]
    rw [if_neg h4]
    simp only [List.isEmpty_iff.mpr hcors]
    rw [if_pos trivial]
    cases hsid : ([1,3,5,7].filter (fun i => cellAt b i == Cell.empty)).isEmpty with
    | true => exact absurd (List.isEmpty_iff.mp hsid) hsne
    | false =>
      rw [if_neg (by simp)]
  · have hb1 : find_winning_move bdC4 Cell.O = none := by decide
    have hb2 : find_winning_move bdC4
        (if Cell.O = Cell.X then Cell.O else Cell.X) = some 2 := by decide
    unfold best_move_normal
    rw [hb1]
    simp only [hb2]
  · rw [tableBestO_eq TXmax TXmin TX_tables_valid bdC4 (by decide)]
    rw [show encode bdC4 = 4 from by decide]
    decide

theorem normal_priority_and_block_witness :
    best_move_normal (fun l => l.headD 0) bdC4 Cell.O = some 2 ∧
    best_move_minimax bdC4 Cell.O = some 2 :=
  ⟨(normal_priority_and_block (fun l => l.headD 0) bdC4 Cell.O).1.2.1
      (by decide) 2 (by decide),
   (normal_priority_and_block (fun l => l.headD 0) bdC4 Cell.O).2.2⟩

/-- **C2**: Hard never loses — with both sides playing the exhaustive
search, the playout from the empty board ends in a tie, and so does the
playout after the human opens in the center (index 4): the deterministic
Hard-vs-Hard line of play from either start reaches `Tie`. -/
theorem hard_vs_hard_always_ties :
    hard_playout 9 (List.replicate 9 Cell.empty) Cell.X = Outcome.tie ∧
    hard_playout 9 ((List.replicate 9 Cell.empty).set 4 Cell.X) Cell.O
      = Outcome.tie := by
  constructor
  · rw [← tablePlayout_eq TXmax TXmin TX_tables_valid 9
      (List.replicate 9 Cell.empty) Cell.X (by decide) (by decide)]
    rw [show encode (List.replicate 9 Cell.empty) = 0 from by decide]
    decide
  · rw [← tablePlayout_eq TXmax TXmin TX_tables_valid 9
      ((List.replicate 9 Cell.empty).set 4 Cell.X) Cell.O (by decide)
      (by decide)]
    rw [show encode ((List.replicate 9 Cell.empty).set 4 Cell.X) = 81
      from by decide]
    decide
